import Mathlib

set_option maxRecDepth 8000

namespace FWD

/-!
Shallow embedding of the Firefox WebDriver extension core.

Identifiers (UUID strings in the source, produced by `generateUUID` /
`crypto.randomUUID`) are modelled as natural numbers drawn from a counter:
each draw is a fresh number, modelling the uniqueness of freshly drawn
UUIDs.  JavaScript `Map` objects are modelled as insertion-ordered
association lists with `Nat` keys.
-/

/-- Insertion-ordered association list modelling a JavaScript `Map` with `Nat` keys. -/
abbrev JsMap (α : Type) := List (Nat × α)

/-- `Map.get`: first entry with the given key. -/
def mapGet {α : Type} (m : JsMap α) (k : Nat) : Option α :=
  match m with
  | [] => none
  | (k', v) :: rest => if k' = k then some v else mapGet rest k

/-- `Map.has`. -/
def mapContains {α : Type} (m : JsMap α) (k : Nat) : Bool :=
  (mapGet m k).isSome

/-- `Map.set`: replace in place if the key is present, else append. -/
def mapSet {α : Type} (m : JsMap α) (k : Nat) (v : α) : JsMap α :=
  match m with
  | [] => [(k, v)]
  | (k', v') :: rest => if k' = k then (k, v) :: rest else (k', v') :: mapSet rest k v

/-- `Map.delete`. -/
def mapDelete {α : Type} (m : JsMap α) (k : Nat) : JsMap α :=
  match m with
  | [] => []
  | (k', v') :: rest => if k' = k then mapDelete rest k else (k', v') :: mapDelete rest k

/-- All keys of the map are below `n` (freshness bound for the UUID counter). -/
def mapKeysBelow {α : Type} (m : JsMap α) (n : Nat) : Prop :=
  ∀ p ∈ m, p.1 < n

theorem mapGet_set_self {α : Type} (m : JsMap α) (k : Nat) (v : α) :
    mapGet (mapSet m k v) k = some v := by
  induction m with
  | nil => simp [mapSet, mapGet]
  | cons p rest ih =>
    by_cases h : p.1 = k
    · simp [mapSet, h, mapGet]
    · simp [mapSet, h, mapGet, ih]

theorem mapGet_set_ne {α : Type} (m : JsMap α) (k j : Nat) (v : α) (h : j ≠ k) :
    mapGet (mapSet m k v) j = mapGet m j := by
  induction m with
  | nil => simp [mapSet, mapGet, Ne.symm h]
  | cons p rest ih =>
    by_cases hk : p.1 = k
    · simp [mapSet, hk, mapGet, Ne.symm h]
    · simp only [mapSet, hk, if_false, mapGet]
      by_cases hj : p.1 = j
      · simp [hj]
      · simp [hj, ih]

theorem mapGet_delete_ne {α : Type} (m : JsMap α) (k j : Nat) (h : j ≠ k) :
    mapGet (mapDelete m k) j = mapGet m j := by
  induction m with
  | nil => simp [mapDelete]
  | cons p rest ih =>
    by_cases hk : p.1 = k
    · simp [mapDelete, hk, mapGet, Ne.symm h, ih]
    · simp only [mapDelete, hk, if_false, mapGet]
      by_cases hj : p.1 = j
      · simp [hj]
      · simp [hj, ih]

theorem mapGet_delete_self {α : Type} (m : JsMap α) (k : Nat) :
    mapGet (mapDelete m k) k = none := by
  induction m with
  | nil => simp [mapDelete, mapGet]
  | cons p rest ih =>
    by_cases hk : p.1 = k
    · simp [mapDelete, hk, ih]
    · simp [mapDelete, hk, mapGet, ih]

theorem mapDelete_of_get_none {α : Type} (m : JsMap α) (k : Nat)
    (h : mapGet m k = none) : mapDelete m k = m := by
  induction m with
  | nil => simp [mapDelete]
  | cons p rest ih =>
    by_cases hk : p.1 = k
    · simp [mapGet, hk] at h
    · simp only [mapGet, hk, if_false] at h
      simp [mapDelete, hk, ih h]

theorem mapGet_mem {α : Type} (m : JsMap α) (k : Nat) (v : α)
    (h : mapGet m k = some v) : (k, v) ∈ m := by
  induction m with
  | nil => simp [mapGet] at h
  | cons p rest ih =>
    obtain ⟨a, b⟩ := p
    by_cases hk : a = k
    · simp only [mapGet, hk, if_true] at h
      cases h
      subst hk
      exact List.mem_cons_self _ _
    · simp only [mapGet, hk, if_false] at h
      exact List.mem_cons_of_mem _ (ih h)

theorem mapKeysBelow_get_none {α : Type} (m : JsMap α) (n k : Nat)
    (hwf : mapKeysBelow m n) (hk : n ≤ k) : mapGet m k = none := by
  induction m with
  | nil => simp [mapGet]
  | cons p rest ih =>
    have hp : p.1 < n := hwf p (List.mem_cons_self _ _)
    have hne : ¬ p.1 = k := by omega
    simp only [mapGet, hne, if_false]
    exact ih (fun q hq => hwf q (List.mem_cons_of_mem _ hq))

theorem mapKeysBelow_mono {α : Type} (m : JsMap α) (n n' : Nat)
    (h : n ≤ n') (hwf : mapKeysBelow m n) : mapKeysBelow m n' :=
  fun p hp => lt_of_lt_of_le (hwf p hp) h

theorem mapKeysBelow_set {α : Type} (m : JsMap α) (n k : Nat) (v : α)
    (hwf : mapKeysBelow m n) (hk : k < n) : mapKeysBelow (mapSet m k v) n := by
  induction m with
  | nil => intro p hp; simp [mapSet] at hp; simp [hp, hk]
  | cons p rest ih =>
    intro q hq
    by_cases hpk : p.1 = k
    · simp only [mapSet, hpk, if_true] at hq
      rcases List.mem_cons.mp hq with h | h
      · simp [h, hk]
      · exact hwf q (List.mem_cons_of_mem _ h)
    · simp only [mapSet, hpk, if_false] at hq
      rcases List.mem_cons.mp hq with h | h
      · exact hwf q (h ▸ List.mem_cons_self _ _)
      · exact ih (fun r hr => hwf r (List.mem_cons_of_mem _ hr)) q h

theorem mapKeysBelow_delete {α : Type} (m : JsMap α) (n k : Nat)
    (hwf : mapKeysBelow m n) : mapKeysBelow (mapDelete m k) n := by
  induction m with
  | nil => intro p hp; simp [mapDelete] at hp
  | cons p rest ih =>
    intro q hq
    by_cases hpk : p.1 = k
    · simp only [mapDelete, hpk, if_true] at hq
      exact ih (fun r hr => hwf r (List.mem_cons_of_mem _ hr)) q hq
    · simp only [mapDelete, hpk, if_false] at hq
      rcases List.mem_cons.mp hq with h | h
      · exact hwf q (h ▸ List.mem_cons_self _ _)
      · exact ih (fun r hr => hwf r (List.mem_cons_of_mem _ hr)) q h

/-- `mapGet` is untouched by folding deletions of keys different from `j`. -/
theorem mapGet_foldl_delete {α : Type} (l : List Nat) (m : JsMap α) (j : Nat)
    (h : j ∉ l) : mapGet (l.foldl mapDelete m) j = mapGet m j := by
  induction l generalizing m with
  | nil => rfl
  | cons k rest ih =>
    have hj : j ≠ k := fun hjk => h (hjk ▸ List.mem_cons_self _ _)
    have hrest : j ∉ rest := fun hr => h (List.mem_cons_of_mem _ hr)
    simp only [List.foldl_cons]
    rw [ih _ hrest, mapGet_delete_ne _ _ _ hj]

/-! ### String helpers (JavaScript `toLowerCase`, `includes`) -/

/-- `String.prototype.toLowerCase` (ASCII; all message text in the source is ASCII). -/
def strToLower (s : String) : String := String.mk (s.data.map Char.toLower)

/-- Does `hs` start with `ns`? -/
def charsStartWith : List Char → List Char → Bool
  | _, [] => true
  | [], _ :: _ => false
  | a :: as, b :: bs => a == b && charsStartWith as bs

/-- Does `hs` contain `ns` as a contiguous run? -/
def charsHasInfix : List Char → List Char → Bool
  | [], ns => ns.isEmpty
  | h :: t, ns => charsStartWith (h :: t) ns || charsHasInfix t ns

/-- `String.prototype.includes`. -/
def strIncludes (s pat : String) : Bool := charsHasInfix s.data pat.data

/-! ### Protocol types and error codes (src/unnamed/part_016, types/protocol) -/

namespace ErrorCode

def UnknownCommand : String := "unknown command"
def InvalidArgument : String := "invalid argument"
def NoSuchElement : String := "no such element"
def StaleElement : String := "stale element"
def NoSuchFrame : String := "no such frame"
def NoSuchTab : String := "no such tab"
def Timeout : String := "timeout"
def ConnectionClosed : String := "connection closed"
def UnknownError : String := "unknown error"

end ErrorCode

/-- A JavaScript failure value: either an `Error` instance (carrying its
message) or some other thrown value (carrying its `String(err)` rendering). -/
inductive JsError : Type where
  | errObj (message : String)
  | value (display : String)
deriving DecidableEq

/-- `err instanceof Error ? err.message : String(err)` (registry.ts line 477). -/
def errMessage : JsError → String
  | JsError.errObj m => m
  | JsError.value d => d

/-- `Session.getErrorCode` (registry.ts lines 486-497): lower-case the message
and test the fixed substring table in source order. -/
def getErrorCode (err : JsError) : String :=
  match err with
  | JsError.errObj message =>
    let msg := strToLower message
    if strIncludes msg "unknown method" then ErrorCode.UnknownCommand
    else if strIncludes msg "element not found" then ErrorCode.NoSuchElement
    else if strIncludes msg "stale" then ErrorCode.StaleElement
    else if strIncludes msg "frame not found" then ErrorCode.NoSuchFrame
    else if strIncludes msg "tab not found" then ErrorCode.NoSuchTab
    else if strIncludes msg "timeout" then ErrorCode.Timeout
    else ErrorCode.UnknownError
  | JsError.value _ => ErrorCode.UnknownError

/-- Request context handed to every handler (types/protocol `RequestContext`). -/
structure RequestContext : Type where
  tabId : Nat
  frameId : Nat

/-- A command handler: `(params, context) => Promise<unknown>`, with the
resolved/rejected promise modelled as `Except`. -/
def Handler (β γ : Type) : Type := β → RequestContext → Except JsError γ

/-- An inbound `Request` message. -/
structure RequestMsg (β : Type) : Type where
  id : String
  method : String
  tabId : Nat
  frameId : Nat
  params : β

/-- An outbound `Response` message: `Success{id, result}` or
`Error{id, error, message}`. -/
inductive ResponseMsg (γ : Type) : Type where
  | success (id : String) (result : γ)
  | error (id : String) (errorCode : String) (message : String)
deriving DecidableEq

/-- The `id` field of a response. -/
def ResponseMsg.rid {γ : Type} : ResponseMsg γ → String
  | ResponseMsg.success id _ => id
  | ResponseMsg.error id _ _ => id

/-- `HandlerRegistry.dispatch` (registry.ts lines 61-71): look up the method
in the registry, throwing `Unknown method: m` when absent. -/
def dispatch {β γ : Type} (handlers : List (String × Handler β γ))
    (method : String) (params : β) (ctx : RequestContext) : Except JsError γ :=
  match handlers.find? (fun p => p.1 == method) with
  | none => Except.error (JsError.errObj ("Unknown method: " ++ method))
  | some p => p.2 params ctx

/-- `Session.handleRequest` (registry.ts lines 462-484): dispatch, then emit
exactly one Success or Error response carrying the request's id.  The
returned list is the sequence of responses sent for this request. -/
def handleRequest {β γ : Type} (handlers : List (String × Handler β γ))
    (req : RequestMsg β) : List (ResponseMsg γ) :=
  match dispatch handlers req.method req.params { tabId := req.tabId, frameId := req.frameId } with
  | Except.ok result => [ResponseMsg.success req.id result]
  | Except.error e => [ResponseMsg.error req.id (getErrorCode e) (errMessage e)]

/-- Modelled from the spec: the fixed message-matching table of section 4.2
("unknown method → UnknownCommand; element not found → NoSuchElement;
stale → StaleElement; frame not found → NoSuchFrame; tab not found →
NoSuchTab; timeout → Timeout; anything else → UnknownError"), cases tested
in the stated order, non-Error failures mapping to UnknownError. -/
def specErrorCodeTable (err : JsError) : String :=
  match err with
  | JsError.errObj message =>
    let msg := strToLower message
    if strIncludes msg "unknown method" then ErrorCode.UnknownCommand
    else if strIncludes msg "element not found" then ErrorCode.NoSuchElement
    else if strIncludes msg "stale" then ErrorCode.StaleElement
    else if strIncludes msg "frame not found" then ErrorCode.NoSuchFrame
    else if strIncludes msg "tab not found" then ErrorCode.NoSuchTab
    else if strIncludes msg "timeout" then ErrorCode.Timeout
    else ErrorCode.UnknownError
  | JsError.value _ => ErrorCode.UnknownError

/-- C3: every inbound Request produces exactly one Response, carrying the
request's id: a Success response with the handler's result when the
dispatched handler resolves, and an Error response when it throws or no
handler is registered.  Never zero and never two responses. -/
theorem claim3_exactly_one_response {β γ : Type}
    (handlers : List (String × Handler β γ)) (req : RequestMsg β) :
    ∃ resp : ResponseMsg γ,
      handleRequest handlers req = [resp] ∧
      resp.rid = req.id ∧
      ((∃ v, dispatch handlers req.method req.params
              { tabId := req.tabId, frameId := req.frameId } = Except.ok v ∧
          resp = ResponseMsg.success req.id v) ∨
       (∃ e, dispatch handlers req.method req.params
              { tabId := req.tabId, frameId := req.frameId } = Except.error e ∧
          resp = ResponseMsg.error req.id (getErrorCode e) (errMessage e))) := by
  cases h : dispatch handlers req.method req.params
      { tabId := req.tabId, frameId := req.frameId } with
  | ok v =>
    refine ⟨ResponseMsg.success req.id v, ?_, rfl, Or.inl ⟨v, rfl, rfl⟩⟩
    · simp [handleRequest, h]
  | error e =>
    refine ⟨ResponseMsg.error req.id (getErrorCode e) (errMessage e), ?_, rfl,
      Or.inr ⟨e, rfl, rfl⟩⟩
    · simp [handleRequest, h]

/-- C4: on any handler failure the emitted Error response's code is exactly
the result of the spec's fixed message-matching table applied to the
failure, and the implementation's `getErrorCode` coincides with that table
on every failure value. -/
theorem claim4_error_code_table {β γ : Type}
    (handlers : List (String × Handler β γ)) (req : RequestMsg β) (e : JsError)
    (h : dispatch handlers req.method req.params
        { tabId := req.tabId, frameId := req.frameId } = Except.error e) :
    handleRequest handlers req =
      [ResponseMsg.error req.id (specErrorCodeTable e) (errMessage e)] ∧
    ∀ e' : JsError, getErrorCode e' = specErrorCodeTable e' := by
  constructor
  · have htab : getErrorCode e = specErrorCodeTable e := by
      cases e <;> rfl
    simp [handleRequest, h, htab]
  · intro e'
    cases e' <;> rfl

/-- Concrete instantiation of C4: a handler rejecting with message
"Element not found: abc" yields the single Error response with code
"no such element". -/
theorem claim4_witness :
    handleRequest
      [("element.find",
        (fun _ _ => Except.error (JsError.errObj "Element not found: abc") :
          Handler Unit Unit))]
      { id := "r1", method := "element.find", tabId := 1, frameId := 0, params := () } =
      [ResponseMsg.error "r1" "no such element" "Element not found: abc"] := by
  have h := claim4_error_code_table
    [("element.find",
      (fun _ _ => Except.error (JsError.errObj "Element not found: abc") :
        Handler Unit Unit))]
    { id := "r1", method := "element.find", tabId := 1, frameId := 0, params := () }
    (JsError.errObj "Element not found: abc") (by rfl)
  exact h.1

/-! ### DOM model

An element is a tree node carrying the attributes the engine inspects.
`nid` is a node identity (JavaScript object reference identity); text nodes
are modelled by the `ownText` field holding the element's directly contained
text.  A document is represented by its root element. -/

inductive Elem : Type where
  | node (nid : Nat) (tag : String) (idAttr : String) (classes : List String)
      (attrs : List (String × String)) (ownText : String) (kids : List Elem)

def Elem.nid : Elem → Nat
  | Elem.node n _ _ _ _ _ _ => n

def Elem.tag : Elem → String
  | Elem.node _ t _ _ _ _ _ => t

def Elem.idAttr : Elem → String
  | Elem.node _ _ i _ _ _ _ => i

def Elem.classes : Elem → List String
  | Elem.node _ _ _ c _ _ _ => c

def Elem.attrs : Elem → List (String × String)
  | Elem.node _ _ _ _ a _ _ => a

def Elem.kids : Elem → List Elem
  | Elem.node _ _ _ _ _ _ ks => ks

/-- `getAttribute`: first binding of the attribute name, if any. -/
def Elem.getAttr (e : Elem) (name : String) : Option String :=
  (e.attrs.find? (fun p => p.1 == name)).map (fun p => p.2)

mutual

/-- The element and all its descendants, in document order. -/
def Elem.preorder : Elem → List Elem
  | Elem.node n t i c a x ks => Elem.node n t i c a x ks :: preorderList ks

def preorderList : List Elem → List Elem
  | [] => []
  | e :: es => e.preorder ++ preorderList es

end

mutual

/-- `textContent`: all text contained in the element, in document order. -/
def Elem.textContent : Elem → String
  | Elem.node _ _ _ _ _ x ks => x ++ textContentList ks

def textContentList : List Elem → String
  | [] => ""
  | e :: es => e.textContent ++ textContentList es

end

/-- Browser-native facilities the content script calls into: the CSS selector
engine (`Element.matches` / `querySelector`) and the XPath evaluator
(`document.evaluate`, first ordered node).  Both are platform services, so
they are parameters of the model. -/
structure Platform : Type where
  cssMatches : String → Elem → Bool
  xpathFind : Elem → String → Option Elem

namespace Content

/-- First element of the document (in document order) satisfying `p`;
this is `querySelector` semantics for a predicate-defined selector. -/
def findFirst (p : Elem → Bool) (doc : Elem) : Option Elem :=
  (Elem.preorder doc).find? p

/-- `findByStrategy` (content/messaging.ts lines 888-990): call-time lookup
of the first document-order element satisfying the strategy/value pair. -/
def findByStrategy (env : Platform) (doc : Elem) (strategy value : String) :
    Option Elem :=
  match strategy with
  | "css" => findFirst (fun e => env.cssMatches value e) doc
  | "id" => findFirst (fun e => e.idAttr == value) doc
  | "class" => findFirst (fun e => e.classes.contains value) doc
  | "tag" => findFirst (fun e => strToLower e.tag == strToLower value) doc
  | "name" => findFirst (fun e => e.getAttr "name" == some value) doc
  | "xpath" => env.xpathFind doc value
  | "text" => findFirst (fun e => e.textContent.trim == value) doc
  | "partialText" => findFirst (fun e => strIncludes e.textContent value) doc
  | "linkText" =>
      findFirst (fun e => strToLower e.tag == "a" && e.textContent.trim == value) doc
  | "partialLinkText" =>
      findFirst (fun e => strToLower e.tag == "a" && strIncludes e.textContent value) doc
  | _ => none

/-- `elementMatchesStrategy` (content/messaging.ts lines 992-1032): per-element
test used by the mutation scan.  Note the source deliberately returns `false`
for the `xpath` strategy ("XPath matching for individual elements is complex,
skip for mutation observer"). -/
def elementMatchesStrategy (env : Platform) (element : Elem)
    (strategy value : String) : Bool :=
  match strategy with
  | "css" => env.cssMatches value element
  | "id" => element.idAttr == value
  | "class" => element.classes.contains value
  | "tag" => strToLower element.tag == strToLower value
  | "name" => element.getAttr "name" == some value
  | "xpath" => false
  | "text" => element.textContent.trim == value
  | "partialText" => strIncludes element.textContent value
  | "linkText" => strToLower element.tag == "a" && element.textContent.trim == value
  | "partialLinkText" =>
      strToLower element.tag == "a" && strIncludes element.textContent value
  | _ => false

/-- An `ElementSubscription` record. -/
structure Subscription : Type where
  id : Nat
  strategy : String
  value : String
  oneShot : Bool
deriving DecidableEq

/-- A `RemovalWatch` record. -/
structure RemovalWatch : Type where
  elementId : Nat
  element : Elem

/-- An `AttributeWatch` record. -/
structure AttributeWatch : Type where
  elementId : Nat
  element : Elem
  attributeName : Option String

/-- The `ObserverResponse` union: `{success: true, subscriptionId, elementId?}`,
plain `{success: true}`, or `{success: false, error, code}`. -/
inductive ObserverResponse : Type where
  | subOk (subscriptionId : Nat) (elementId : Option Nat)
  | ok
  | err (error : String) (code : String)
deriving DecidableEq

/-- The observation engine's per-frame state: the three watch tables, the
shared element store, the two mutation observers (`observerRunning` for the
child-list observer, `attributeObserverRunning` plus the set of targets the
attribute observer was asked to observe, keyed by node identity with the
optional attribute filter), and the UUID counter. -/
structure EngineState : Type where
  subscriptions : JsMap Subscription
  removalWatches : JsMap RemovalWatch
  attributeWatches : JsMap AttributeWatch
  elementStore : JsMap Elem
  observerRunning : Bool
  attributeObserverRunning : Bool
  observedAttrTargets : JsMap (Option String)
  nextId : Nat

/-- Engine state of a freshly initialized frame (`initObserver`). -/
def initialEngineState : EngineState :=
  { subscriptions := [], removalWatches := [], attributeWatches := [],
    elementStore := [], observerRunning := true,
    attributeObserverRunning := false, observedAttrTargets := [], nextId := 0 }

/-- The valid strategy list (content/messaging.ts lines 1250-1261). -/
def validStrategies : List String :=
  ["css", "xpath", "text", "partialText", "id", "tag", "name", "class",
   "linkText", "partialLinkText"]

/-- `subscribe` (content/messaging.ts lines 1238-1312). -/
def subscribe (env : Platform) (doc : Elem) (strategy value : String)
    (oneShot : Bool) (st : EngineState) : ObserverResponse × EngineState :=
  let st0 := { st with observerRunning := true }
  if !(validStrategies.contains strategy) then
    (ObserverResponse.err ("Invalid strategy: " ++ strategy) "invalid argument", st0)
  else
    let subscriptionId := st0.nextId
    let st1 := { st0 with nextId := st0.nextId + 1 }
    let sub : Subscription :=
      { id := subscriptionId, strategy := strategy, value := value,
        oneShot := oneShot }
    match findByStrategy env doc strategy value with
    | some existingElement =>
      let elementId := st1.nextId
      let st2 := { st1 with nextId := st1.nextId + 1 }
      let st2 := { st2 with
        elementStore := mapSet st2.elementStore elementId existingElement }
      if oneShot then (ObserverResponse.subOk subscriptionId (some elementId), st2)
      else
        (ObserverResponse.subOk subscriptionId (some elementId),
         { st2 with subscriptions := mapSet st2.subscriptions subscriptionId sub })
    | none =>
      (ObserverResponse.subOk subscriptionId none,
       { st1 with subscriptions := mapSet st1.subscriptions subscriptionId sub })

/-- `unsubscribe` (content/messaging.ts lines 1314-1327). -/
def unsubscribe (subscriptionId : Nat) (st : EngineState) :
    ObserverResponse × EngineState :=
  if mapContains st.subscriptions subscriptionId then
    (ObserverResponse.ok,
     { st with subscriptions := mapDelete st.subscriptions subscriptionId })
  else
    (ObserverResponse.err ("Subscription not found: " ++ toString subscriptionId)
       "no such element", st)

/-- `isElementAttached` (content/elements.ts lines 130-132): `document.contains`. -/
def isElementAttached (doc : Elem) (element : Elem) : Bool :=
  (Elem.preorder doc).any (fun x => x.nid == element.nid)

/-- `watchRemoval` (content/messaging.ts lines 1329-1346). -/
def watchRemoval (elementId : Nat) (st : EngineState) :
    ObserverResponse × EngineState :=
  match mapGet st.elementStore elementId with
  | none =>
    (ObserverResponse.err ("Element not found: " ++ toString elementId)
       "no such element", st)
  | some element =>
    let w : RemovalWatch := { elementId := elementId, element := element }
    (ObserverResponse.ok,
     { st with removalWatches := mapSet st.removalWatches elementId w })

/-- `unwatchRemoval` (content/messaging.ts lines 1348-1352): unconditional
delete, always succeeds. -/
def unwatchRemoval (elementId : Nat) (st : EngineState) :
    ObserverResponse × EngineState :=
  (ObserverResponse.ok,
   { st with removalWatches := mapDelete st.removalWatches elementId })

/-- `startAttributeObserver` (content/messaging.ts lines 1213-1232): if the
observer is already running, return immediately; otherwise create it and
observe every currently-watched element that is attached, with the watch's
attribute filter. -/
def startAttributeObserver (doc : Elem) (st : EngineState) : EngineState :=
  if st.attributeObserverRunning then st
  else
    { st with
      attributeObserverRunning := true,
      observedAttrTargets := st.attributeWatches.foldl
        (fun acc p =>
          if isElementAttached doc p.2.element then
            mapSet acc p.2.element.nid p.2.attributeName
          else acc) [] }

/-- `watchAttribute` (content/messaging.ts lines 1354-1374). -/
def watchAttribute (doc : Elem) (elementId : Nat) (attributeName : Option String)
    (st : EngineState) : ObserverResponse × EngineState :=
  match mapGet st.elementStore elementId with
  | none =>
    (ObserverResponse.err ("Element not found: " ++ toString elementId)
       "no such element", st)
  | some element =>
    let w : AttributeWatch :=
      { elementId := elementId, element := element,
        attributeName := attributeName }
    let st' := { st with attributeWatches := mapSet st.attributeWatches elementId w }
    (ObserverResponse.ok, startAttributeObserver doc st')

/-- `unwatchAttribute` (content/messaging.ts lines 1376-1388): delete, then
disconnect the attribute observer when no watch remains. -/
def unwatchAttribute (elementId : Nat) (st : EngineState) :
    ObserverResponse × EngineState :=
  let st' := { st with attributeWatches := mapDelete st.attributeWatches elementId }
  if st'.attributeWatches.isEmpty && st'.attributeObserverRunning then
    (ObserverResponse.ok,
     { st' with attributeObserverRunning := false, observedAttrTargets := [] })
  else (ObserverResponse.ok, st')

/-- Notifications emitted toward the Session (`sendEvent` calls). -/
inductive CEvent : Type where
  | elementAdded (strategy value : String) (elementId subscriptionId : Nat)
  | elementRemoved (elementId : Nat)
  | attributeChanged (elementId : Nat) (attributeName : String)
      (oldValue newValue : Option String)
deriving DecidableEq

/-- The loop body of `checkElementAgainstSubscriptions` (content/messaging.ts
lines 1038-1070): scan the subscription entries in order; each match
allocates and stores an element handle, emits `element.added`, and records
oneShot matches for removal after the loop. -/
def checkSubsFold (env : Platform) (element : Elem)
    (pending : List (Nat × Subscription)) (st : EngineState)
    (acc : List CEvent) (toRemove : List Nat) :
    EngineState × List CEvent × List Nat :=
  match pending with
  | [] => (st, acc, toRemove)
  | (subId, sub) :: rest =>
    if elementMatchesStrategy env element sub.strategy sub.value then
      let elementId := st.nextId
      let st' := { st with nextId := st.nextId + 1 }
      let st' := { st' with
        elementStore := mapSet st'.elementStore elementId element }
      checkSubsFold env element rest st'
        (acc ++ [CEvent.elementAdded sub.strategy sub.value elementId subId])
        (if sub.oneShot then toRemove ++ [subId] else toRemove)
    else
      checkSubsFold env element rest st acc toRemove

/-- `checkElementAgainstSubscriptions` (content/messaging.ts lines 1038-1076):
scan, then delete the collected oneShot subscriptions. -/
def checkElementAgainstSubscriptions (env : Platform) (element : Elem)
    (st : EngineState) : EngineState × List CEvent :=
  let r := checkSubsFold env element st.subscriptions st [] []
  ({ r.1 with subscriptions := r.2.2.foldl mapDelete r.1.subscriptions }, r.2.1)

/-- `checkAddedNodeAndDescendants` (content/messaging.ts lines 1092-1104):
test the inserted node and every descendant. -/
def checkAddedNodeAndDescendants (env : Platform) (node : Elem)
    (st : EngineState) : EngineState × List CEvent :=
  (Elem.preorder node).foldl
    (fun p e =>
      let q := checkElementAgainstSubscriptions env e p.1
      (q.1, p.2 ++ q.2))
    (st, [])

/-- `checkRemovedNode` (content/messaging.ts lines 1078-1090): fire and drop
every removal watch whose element is the removed node or inside it. -/
def checkRemovedNode (node : Elem) (st : EngineState) :
    EngineState × List CEvent :=
  let hit := fun (w : RemovalWatch) =>
    w.element.nid == node.nid ||
      (Elem.preorder node).any (fun d => d.nid == w.element.nid)
  ({ st with removalWatches := st.removalWatches.filter (fun p => !(hit p.2)) },
   (st.removalWatches.filter (fun p => hit p.2)).map
     (fun p => CEvent.elementRemoved p.2.elementId))

/-- One `MutationRecord` of the child-list observer. -/
structure MutationRec : Type where
  added : List Elem
  removed : List Elem

/-- `handleMutations` (content/messaging.ts lines 1110-1139): skip the batch
entirely when no subscription is retained; otherwise process every added
node (and its subtree) and every removed node of every record. -/
def handleMutations (env : Platform) (muts : List MutationRec)
    (st : EngineState) : EngineState × List CEvent :=
  if st.subscriptions.isEmpty then (st, [])
  else
    muts.foldl
      (fun p mrec =>
        let q := mrec.added.foldl
          (fun p' nd =>
            let r := checkAddedNodeAndDescendants env nd p'.1
            (r.1, p'.2 ++ r.2)) p
        mrec.removed.foldl
          (fun p' nd =>
            let r := checkRemovedNode nd p'.1
            (r.1, p'.2 ++ r.2)) q)
      (st, [])

/-- A platform attribute-mutation record: the changed element's identity, the
attribute's name, the value before the change (`attributeOldValue`) and the
value readable on the element after the change (`target.getAttribute`). -/
structure AttrChange : Type where
  targetNid : Nat
  attributeName : String
  oldValue : Option String
  newValue : Option String

/-- Does the attribute observer deliver this record?  Only when it is running,
the target element was in the observed set when the observer started, and the
per-target attribute filter (if any) names the changed attribute. -/
def attrRecordDelivered (st : EngineState) (ch : AttrChange) : Bool :=
  st.attributeObserverRunning &&
    match mapGet st.observedAttrTargets ch.targetNid with
    | none => false
    | some none => true
    | some (some f) => f == ch.attributeName

/-- `handleAttributeMutations` (content/messaging.ts lines 1141-1174): for a
delivered record, every attribute watch on the target (respecting the watch's
own filter) emits `element.attributeChanged`. -/
def handleAttributeMutations (st : EngineState) (ch : AttrChange) :
    List CEvent :=
  st.attributeWatches.foldl
    (fun acc p =>
      if p.2.element.nid == ch.targetNid then
        match p.2.attributeName with
        | some a =>
          if a == ch.attributeName then
            acc ++ [CEvent.attributeChanged p.1 ch.attributeName ch.oldValue
              ch.newValue]
          else acc
        | none =>
          acc ++ [CEvent.attributeChanged p.1 ch.attributeName ch.oldValue
            ch.newValue]
      else acc)
    []

/-- End-to-end attribute-change dispatch: the observer callback runs only on
records the platform observer actually delivers. -/
def dispatchAttrChange (st : EngineState) (ch : AttrChange) : List CEvent :=
  if attrRecordDelivered st ch then handleAttributeMutations st ch else []

/-- The element-lookup result of `getElement` (content/elements.ts). -/
inductive ElementLookup : Type where
  | found (element : Elem)
  | failure (error : String) (code : String)

/-- `getElement` (content/elements.ts lines 134-155): missing handle fails
with "no such element"; a detached node is evicted and fails with
"stale element"; otherwise the live node is returned. -/
def getElement (doc : Elem) (store : JsMap Elem) (elementId : Nat) :
    ElementLookup × JsMap Elem :=
  match mapGet store elementId with
  | none =>
    (ElementLookup.failure ("Element not found: " ++ toString elementId)
       "no such element", store)
  | some element =>
    if isElementAttached doc element then (ElementLookup.found element, store)
    else
      (ElementLookup.failure ("Element is stale: " ++ toString elementId)
         "stale element", mapDelete store elementId)

end Content

open Content

/-- C5: on a subscribe with a valid strategy, an existing match yields a
success response carrying a fresh `subscriptionId` together with a fresh
`elementId` under which the matched node is stored; a oneShot call retains
nothing (the subscription table is unchanged) while a non-oneShot call
retains the subscription as well; with no existing match, the response
carries only the `subscriptionId` and a pending watch keyed by it is
retained. -/
theorem claim5_subscribe_immediate_or_pending
    (env : Platform) (doc : Elem) (strategy value : String) (oneShot : Bool)
    (st : EngineState)
    (hvalid : validStrategies.contains strategy = true)
    (hstore : mapKeysBelow st.elementStore st.nextId)
    (hsubs : mapKeysBelow st.subscriptions st.nextId) :
    (∀ el, findByStrategy env doc strategy value = some el →
      (subscribe env doc strategy value oneShot st).1 =
        ObserverResponse.subOk st.nextId (some (st.nextId + 1)) ∧
      mapGet (subscribe env doc strategy value oneShot st).2.elementStore
        (st.nextId + 1) = some el ∧
      mapGet st.elementStore (st.nextId + 1) = none ∧
      mapGet st.subscriptions st.nextId = none ∧
      (oneShot = true →
        (subscribe env doc strategy value oneShot st).2.subscriptions =
          st.subscriptions) ∧
      (oneShot = false →
        (subscribe env doc strategy value oneShot st).2.subscriptions =
          mapSet st.subscriptions st.nextId
            { id := st.nextId, strategy := strategy, value := value,
              oneShot := oneShot })) ∧
    (findByStrategy env doc strategy value = none →
      (subscribe env doc strategy value oneShot st).1 =
        ObserverResponse.subOk st.nextId none ∧
      mapGet (subscribe env doc strategy value oneShot st).2.subscriptions
        st.nextId =
        some { id := st.nextId, strategy := strategy, value := value,
               oneShot := oneShot }) := by
  have hmem : strategy ∈ validStrategies := by simpa using hvalid
  constructor
  · intro el hfind
    refine ⟨?_, ?_, ?_, ?_, ?_, ?_⟩
    · cases oneShot <;> simp [subscribe, hmem, hfind]
    · cases oneShot <;> simp [subscribe, hmem, hfind, mapGet_set_self]
    · exact mapKeysBelow_get_none _ _ _ hstore (Nat.le_succ _)
    · exact mapKeysBelow_get_none _ _ _ hsubs (Nat.le_refl _)
    · intro h1; subst h1; simp [subscribe, hmem, hfind]
    · intro h0; subst h0; simp [subscribe, hmem, hfind]
  · intro hfind
    constructor
    · simp [subscribe, hmem, hfind]
    · simp [subscribe, hmem, hfind, mapGet_set_self]

/-- Fixture: a platform whose CSS and XPath engines match nothing. -/
def envFalse : Platform :=
  { cssMatches := fun _ _ => false, xpathFind := fun _ _ => none }

/-- Fixture: a button element with id "login". -/
def btnLogin : Elem := Elem.node 1 "button" "login" [] [] "" []

/-- Fixture: a document containing `btnLogin`. -/
def docW : Elem := Elem.node 0 "html" "" [] [] "" [btnLogin]

/-- Concrete instantiation of C5: subscribing for id "login" on `docW` with
oneShot resolves in the same call with fresh ids 0 and 1, stores the button,
and retains no subscription; subscribing for the missing id "nope" returns
only the subscription id. -/
theorem claim5_witness :
    (subscribe envFalse docW "id" "login" true initialEngineState).1 =
      ObserverResponse.subOk 0 (some 1) ∧
    mapGet (subscribe envFalse docW "id" "login" true
      initialEngineState).2.elementStore 1 = some btnLogin ∧
    (subscribe envFalse docW "id" "login" true
      initialEngineState).2.subscriptions = [] ∧
    (subscribe envFalse docW "id" "nope" true initialEngineState).1 =
      ObserverResponse.subOk 0 none := by
  have h1 := claim5_subscribe_immediate_or_pending envFalse docW "id" "login"
    true initialEngineState (by decide) (by simp [mapKeysBelow, initialEngineState])
    (by simp [mapKeysBelow, initialEngineState])
  have h2 := claim5_subscribe_immediate_or_pending envFalse docW "id" "nope"
    true initialEngineState (by decide) (by simp [mapKeysBelow, initialEngineState])
    (by simp [mapKeysBelow, initialEngineState])
  have hfind : findByStrategy envFalse docW "id" "login" = some btnLogin := by rfl
  have hnone : findByStrategy envFalse docW "id" "nope" = none := by rfl
  obtain ⟨r1, r2, -, -, r5, -⟩ := h1.1 btnLogin hfind
  exact ⟨r1, r2, r5 rfl, (h2.2 hnone).1⟩

/-- C8: unsubscribing a subscriptionId absent from the engine's table fails
with the NoSuchElement-class error and changes nothing, while unwatchRemoval
and unwatchAttribute on an unknown elementId succeed silently; on known
handles all three remove the retained entry. -/
theorem claim8_unsubscribe_strict_unwatch_idempotent
    (st : EngineState) (a b c d : Nat) :
    (mapGet st.subscriptions a = none →
      unsubscribe a st =
        (ObserverResponse.err ("Subscription not found: " ++ toString a)
          "no such element", st)) ∧
    (mapGet st.removalWatches b = none →
      unwatchRemoval b st = (ObserverResponse.ok, st)) ∧
    (mapGet st.attributeWatches c = none →
      (st.attributeWatches.isEmpty = false ∨ st.attributeObserverRunning = false) →
      unwatchAttribute c st = (ObserverResponse.ok, st)) ∧
    (∀ r, mapGet st.subscriptions d = some r →
      (unsubscribe d st).1 = ObserverResponse.ok ∧
      mapGet (unsubscribe d st).2.subscriptions d = none) ∧
    ((unwatchRemoval b st).1 = ObserverResponse.ok ∧
      mapGet (unwatchRemoval b st).2.removalWatches b = none) ∧
    ((unwatchAttribute c st).1 = ObserverResponse.ok ∧
      mapGet (unwatchAttribute c st).2.attributeWatches c = none) := by
  refine ⟨?_, ?_, ?_, ?_, ?_, ?_⟩
  · intro h
    simp [unsubscribe, mapContains, h]
  · intro h
    simp [unwatchRemoval, mapDelete_of_get_none _ _ h]
  · intro h hinv
    have hdel : mapDelete st.attributeWatches c = st.attributeWatches :=
      mapDelete_of_get_none _ _ h
    have hcond : (st.attributeWatches.isEmpty && st.attributeObserverRunning) = false := by
      rcases hinv with hne | hoff
      · simp [hne]
      · simp [hoff]
    simp only [unwatchAttribute, hdel, hcond]
    rfl
  · intro r h
    have : mapContains st.subscriptions d = true := by
      simp [mapContains, h]
    constructor
    · simp [unsubscribe, this]
    · simp [unsubscribe, this, mapGet_delete_self]
  · constructor
    · simp [unwatchRemoval]
    · simp [unwatchRemoval, mapGet_delete_self]
  · constructor
    · simp only [unwatchAttribute]
      split <;> rfl
    · simp only [unwatchAttribute]
      split <;> simp [mapGet_delete_self]

/-- Fixture: a retained subscription record. -/
def sub8 : Subscription := { id := 1, strategy := "id", value := "x", oneShot := true }

/-- Fixture: an attribute watch on `btnLogin` without a filter. -/
def aw8 : AttributeWatch :=
  { elementId := 3, element := btnLogin, attributeName := none }

/-- Fixture: an engine state with one entry in each watch table. -/
def st8 : EngineState :=
  { subscriptions := [(1, sub8)],
    removalWatches := [(2, { elementId := 2, element := btnLogin })],
    attributeWatches := [(3, aw8)],
    elementStore := [(2, btnLogin), (3, btnLogin)],
    observerRunning := true, attributeObserverRunning := true,
    observedAttrTargets := [(1, none)], nextId := 4 }

/-- Concrete instantiation of C8 on `st8`: unknown id 9 fails unsubscribe but
silently succeeds both unwatch operations; known ids are removed. -/
theorem claim8_witness :
    unsubscribe 9 st8 =
      (ObserverResponse.err "Subscription not found: 9" "no such element", st8) ∧
    unwatchRemoval 9 st8 = (ObserverResponse.ok, st8) ∧
    unwatchAttribute 9 st8 = (ObserverResponse.ok, st8) ∧
    mapGet (unsubscribe 1 st8).2.subscriptions 1 = none ∧
    mapGet (unwatchRemoval 2 st8).2.removalWatches 2 = none ∧
    mapGet (unwatchAttribute 3 st8).2.attributeWatches 3 = none := by
  have h9 := claim8_unsubscribe_strict_unwatch_idempotent st8 9 9 9 1
  have h2 := claim8_unsubscribe_strict_unwatch_idempotent st8 9 2 3 1
  refine ⟨h9.1 (by rfl), h9.2.1 (by rfl), ?_, ?_, h2.2.2.2.2.1.2, h2.2.2.2.2.2.2⟩
  · exact h9.2.2.1 (by rfl) (Or.inl (by rfl))
  · exact ((h9.2.2.2.1) sub8 (by rfl)).2

/-- C9: looking up an element handle re-validates attachment — an absent
handle yields the no-such-element condition, a handle whose node is detached
is evicted from the store and yields the stale-element condition, and a
successful lookup returns the stored node, which is attached. -/
theorem claim9_element_lookup_validation
    (doc : Elem) (store : JsMap Elem) (elementId : Nat) :
    (mapGet store elementId = none →
      getElement doc store elementId =
        (ElementLookup.failure ("Element not found: " ++ toString elementId)
          "no such element", store)) ∧
    (∀ e, mapGet store elementId = some e →
      isElementAttached doc e = false →
      getElement doc store elementId =
        (ElementLookup.failure ("Element is stale: " ++ toString elementId)
          "stale element", mapDelete store elementId)) ∧
    (∀ e store', getElement doc store elementId =
        (ElementLookup.found e, store') →
      isElementAttached doc e = true ∧ mapGet store elementId = some e ∧
        store' = store) := by
  refine ⟨?_, ?_, ?_⟩
  · intro h
    simp [getElement, h]
  · intro e h hdet
    simp [getElement, h, hdet]
  · intro e store' h
    cases hg : mapGet store elementId with
    | none => simp [getElement, hg] at h
    | some el =>
      by_cases hatt : isElementAttached doc el = true
      · simp only [getElement, hg, hatt, if_true] at h
        obtain ⟨h1, h2⟩ := Prod.mk.injEq .. ▸ h
        injection h1 with he
        subst he
        exact ⟨hatt, rfl, h2.symm⟩
      · simp [getElement, hg, hatt] at h

/-! ### Mutation-scan lemmas (for C6) -/

/-- Keys of `mapDelete` form a sublist of the original keys. -/
theorem mapDelete_keys_sublist {α : Type} (m : JsMap α) (k : Nat) :
    ((mapDelete m k).map Prod.fst).Sublist (m.map Prod.fst) := by
  induction m with
  | nil => simp [mapDelete]
  | cons p rest ih =>
    by_cases hk : p.1 = k
    · simp only [mapDelete, hk, if_true, List.map_cons]
      exact ih.trans (List.sublist_cons_self _ _)
    · simp only [mapDelete, hk, if_false, List.map_cons]
      exact ih.cons₂ _

/-- Keys after folding deletions form a sublist of the original keys. -/
theorem foldl_delete_keys_sublist {α : Type} (l : List Nat) (m : JsMap α) :
    ((l.foldl mapDelete m).map Prod.fst).Sublist (m.map Prod.fst) := by
  induction l generalizing m with
  | nil => simp
  | cons k rest ih =>
    simp only [List.foldl_cons]
    exact (ih (mapDelete m k)).trans (mapDelete_keys_sublist m k)

/-- With nodup keys, a key determines its entry. -/
theorem nodup_key_unique {α : Type} (m : JsMap α) (k : Nat) (a b : α)
    (hnd : (m.map Prod.fst).Nodup) (ha : (k, a) ∈ m) (hb : (k, b) ∈ m) :
    a = b := by
  induction m with
  | nil => cases ha
  | cons p rest ih =>
    simp only [List.map_cons, List.nodup_cons] at hnd
    rcases List.mem_cons.mp ha with h1 | h1 <;>
      rcases List.mem_cons.mp hb with h2 | h2
    · rw [← h1] at h2; exact (Prod.mk.injEq .. ▸ h2 : _ ∧ _).2.symm ▸ rfl
    · exfalso
      exact hnd.1 (h1 ▸ (List.mem_map.mpr ⟨(k, b), h2, rfl⟩))
    · exfalso
      exact hnd.1 (h2 ▸ (List.mem_map.mpr ⟨(k, a), h1, rfl⟩))
    · exact ih hnd.2 h1 h2

/-- Frame lemma for the subscription-scan loop: the subscription table is
untouched, the id counter only grows, stored entries below the initial
counter survive, the store stays key-bounded, and accumulated events
persist. -/
theorem checkSubsFold_frame (env : Platform) (element : Elem)
    (pending : List (Nat × Subscription)) (st : EngineState)
    (acc : List CEvent) (rm : List Nat) :
    (checkSubsFold env element pending st acc rm).1.subscriptions =
      st.subscriptions ∧
    st.nextId ≤ (checkSubsFold env element pending st acc rm).1.nextId ∧
    (∀ k, k < st.nextId →
      mapGet (checkSubsFold env element pending st acc rm).1.elementStore k =
        mapGet st.elementStore k) ∧
    (mapKeysBelow st.elementStore st.nextId →
      mapKeysBelow (checkSubsFold env element pending st acc rm).1.elementStore
        (checkSubsFold env element pending st acc rm).1.nextId) ∧
    (∀ ev, ev ∈ acc →
      ev ∈ (checkSubsFold env element pending st acc rm).2.1) := by
  induction pending generalizing st acc rm with
  | nil => exact ⟨rfl, Nat.le_refl _, fun k _ => rfl, fun h => h, fun ev h => h⟩
  | cons p rest ih =>
    obtain ⟨subId, sub⟩ := p
    cases hm : elementMatchesStrategy env element sub.strategy sub.value with
    | false =>
      simp only [checkSubsFold, hm, Bool.false_eq_true, if_false]
      exact ih st acc rm
    | true =>
      simp only [checkSubsFold, hm, if_true]
      obtain ⟨ih1, ih2, ih3, ih4, ih5⟩ := ih
        { st with nextId := st.nextId + 1, elementStore := mapSet st.elementStore st.nextId element }
        (acc ++ [CEvent.elementAdded sub.strategy sub.value st.nextId subId])
        (if sub.oneShot then rm ++ [subId] else rm)
      refine ⟨ih1, ?_, ?_, ?_, ?_⟩
      · exact Nat.le_trans (Nat.le_succ _) ih2
      · intro k hk
        rw [ih3 k (Nat.lt_trans hk (Nat.lt_succ_self _))]
        exact mapGet_set_ne _ _ _ _ (Nat.ne_of_lt hk)
      · intro hwf
        refine ih4 ?_
        exact mapKeysBelow_set _ _ _ _
          (mapKeysBelow_mono _ _ _ (Nat.le_succ _) hwf) (Nat.lt_succ_self _)
      · intro ev hev
        exact ih5 ev (List.mem_append_left _ hev)

/-- Hit lemma for the subscription-scan loop: a pending entry whose record
matches the scanned element produces an `element.added` event for that
entry's id, with the element stored under the event's fresh handle. -/
theorem checkSubsFold_hit (env : Platform) (element : Elem) (i : Nat)
    (sub : Subscription) (pending : List (Nat × Subscription))
    (st : EngineState) (acc : List CEvent) (rm : List Nat)
    (hmem : (i, sub) ∈ pending)
    (hmatch : elementMatchesStrategy env element sub.strategy sub.value = true)
    (hwf : mapKeysBelow st.elementStore st.nextId) :
    ∃ eid, eid < (checkSubsFold env element pending st acc rm).1.nextId ∧
      CEvent.elementAdded sub.strategy sub.value eid i ∈
        (checkSubsFold env element pending st acc rm).2.1 ∧
      mapGet (checkSubsFold env element pending st acc rm).1.elementStore eid =
        some element := by
  induction pending generalizing st acc rm with
  | nil => cases hmem
  | cons p rest ih =>
    obtain ⟨subId, sub'⟩ := p
    rcases List.mem_cons.mp hmem with hhead | htail
    · obtain ⟨h1, h2⟩ := Prod.mk.injEq .. ▸ hhead
      subst h1; subst h2
      simp only [checkSubsFold, hmatch, if_true]
      obtain ⟨-, f2, f3, -, f5⟩ := checkSubsFold_frame env element rest
        { st with nextId := st.nextId + 1, elementStore := mapSet st.elementStore st.nextId element }
        (acc ++ [CEvent.elementAdded sub.strategy sub.value st.nextId i])
        (if sub.oneShot then rm ++ [i] else rm)
      refine ⟨st.nextId, ?_, ?_, ?_⟩
      · exact Nat.lt_of_lt_of_le (Nat.lt_succ_self _) f2
      · exact f5 _ (List.mem_append_right _ (List.mem_singleton.mpr rfl))
      · rw [f3 st.nextId (Nat.lt_succ_self _)]
        exact mapGet_set_self _ _ _
    · cases hm : elementMatchesStrategy env element sub'.strategy sub'.value with
      | false =>
        simp only [checkSubsFold, hm, Bool.false_eq_true, if_false]
        exact ih st acc rm htail hwf
      | true =>
        simp only [checkSubsFold, hm, if_true]
        refine ih _ _ _ htail ?_
        exact mapKeysBelow_set _ _ _ _
          (mapKeysBelow_mono _ _ _ (Nat.le_succ _) hwf) (Nat.lt_succ_self _)

/-- The oneShot-removal list only collects ids of entries that matched. -/
theorem checkSubsFold_notRemoved (env : Platform) (element : Elem) (i : Nat)
    (pending : List (Nat × Subscription)) (st : EngineState)
    (acc : List CEvent) (rm : List Nat)
    (hno : ∀ p ∈ pending, p.1 = i →
      elementMatchesStrategy env element p.2.strategy p.2.value = false)
    (hrm : i ∉ rm) :
    i ∉ (checkSubsFold env element pending st acc rm).2.2 := by
  induction pending generalizing st acc rm with
  | nil => exact hrm
  | cons p rest ih =>
    obtain ⟨subId, sub⟩ := p
    cases hm : elementMatchesStrategy env element sub.strategy sub.value with
    | false =>
      simp only [checkSubsFold, hm, Bool.false_eq_true, if_false]
      exact ih st acc rm (fun q hq => hno q (List.mem_cons_of_mem _ hq)) hrm
    | true =>
      simp only [checkSubsFold, hm, if_true]
      refine ih _ _ _ (fun q hq => hno q (List.mem_cons_of_mem _ hq)) ?_
      cases hos : sub.oneShot with
      | false => simpa [hos] using hrm
      | true =>
        simp only [hos, if_true]
        intro hmem
        rcases List.mem_append.mp hmem with h | h
        · exact hrm h
        · have hi : subId = i := (List.mem_singleton.mp h).symm
          have := hno (subId, sub) (List.mem_cons_self _ _) hi
          rw [hm] at this
          cases this

/-- Frame lemma for `checkElementAgainstSubscriptions`. -/
theorem checkElement_frame (env : Platform) (element : Elem) (st : EngineState) :
    st.nextId ≤ (checkElementAgainstSubscriptions env element st).1.nextId ∧
    (∀ k, k < st.nextId →
      mapGet (checkElementAgainstSubscriptions env element st).1.elementStore k =
        mapGet st.elementStore k) ∧
    (mapKeysBelow st.elementStore st.nextId →
      mapKeysBelow
        (checkElementAgainstSubscriptions env element st).1.elementStore
        (checkElementAgainstSubscriptions env element st).1.nextId) ∧
    ((st.subscriptions.map Prod.fst).Nodup →
      ((checkElementAgainstSubscriptions env element st).1.subscriptions.map
        Prod.fst).Nodup) := by
  obtain ⟨f1, f2, f3, f4, -⟩ := checkSubsFold_frame env element
    st.subscriptions st [] []
  refine ⟨f2, f3, f4, ?_⟩
  intro hnd
  refine List.Nodup.sublist ?_ hnd
  refine (foldl_delete_keys_sublist _ _).trans ?_
  rw [f1]

/-- Retention lemma: an entry whose record does not match the element
survives `checkElementAgainstSubscriptions` untouched. -/
theorem checkElement_retain (env : Platform) (element : Elem)
    (st : EngineState) (i : Nat) (rec : Subscription)
    (hget : mapGet st.subscriptions i = some rec)
    (hnd : (st.subscriptions.map Prod.fst).Nodup)
    (hno : elementMatchesStrategy env element rec.strategy rec.value = false) :
    mapGet (checkElementAgainstSubscriptions env element st).1.subscriptions i =
      some rec := by
  obtain ⟨f1, -, -, -, -⟩ := checkSubsFold_frame env element
    st.subscriptions st [] []
  have hmem : (i, rec) ∈ st.subscriptions := mapGet_mem _ _ _ hget
  have hnotrm : i ∉ (checkSubsFold env element st.subscriptions st [] []).2.2 := by
    refine checkSubsFold_notRemoved env element i _ _ _ _ ?_ (by simp)
    intro p hp hpi
    have : p.2 = rec := by
      have hpmem : (i, p.2) ∈ st.subscriptions := by
        have : p = (i, p.2) := by
          obtain ⟨a, b⟩ := p
          simp only at hpi
          rw [hpi]
        exact this ▸ hp
      exact nodup_key_unique _ _ _ _ hnd hpmem hmem
    rw [this]
    exact hno
  show mapGet ((checkSubsFold env element st.subscriptions st [] []).2.2.foldl
    mapDelete (checkSubsFold env element st.subscriptions st [] []).1.subscriptions) i = some rec
  rw [mapGet_foldl_delete _ _ _ hnotrm, f1]
  exact hget

/-- Hit lemma: an entry whose record matches the element yields an emitted
`element.added` event for that entry, with the element stored under the
event's handle in the post-state. -/
theorem checkElement_hit (env : Platform) (element : Elem)
    (st : EngineState) (i : Nat) (rec : Subscription)
    (hget : mapGet st.subscriptions i = some rec)
    (hmatch : elementMatchesStrategy env element rec.strategy rec.value = true)
    (hwf : mapKeysBelow st.elementStore st.nextId) :
    ∃ eid, eid < (checkElementAgainstSubscriptions env element st).1.nextId ∧
      CEvent.elementAdded rec.strategy rec.value eid i ∈
        (checkElementAgainstSubscriptions env element st).2 ∧
      mapGet (checkElementAgainstSubscriptions env element st).1.elementStore
        eid = some element := by
  have hmem : (i, rec) ∈ st.subscriptions := mapGet_mem _ _ _ hget
  obtain ⟨eid, h1, h2, h3⟩ := checkSubsFold_hit env element i rec
    st.subscriptions st [] [] hmem hmatch hwf
  exact ⟨eid, h1, h2, h3⟩

/-- Invariant preservation along a left fold. -/
theorem foldl_preserve {α β : Type} (f : β → α → β) (P : β → Prop)
    (hstep : ∀ p a, P p → P (f p a)) (l : List α) :
    ∀ p, P p → P (l.foldl f p) := by
  induction l with
  | nil => exact fun p hp => hp
  | cons a rest ih => exact fun p hp => ih (f p a) (hstep p a hp)

/-- Reachability along a left fold: `P` is preserved by every step, the
trigger element turns `P` into `Q`, and `Q` persists. -/
theorem foldl_reach {α β : Type} (f : β → α → β) (P Q : β → Prop)
    (hP : ∀ p a, P p → P (f p a)) (hQ : ∀ p a, Q p → Q (f p a)) (a₀ : α)
    (htrig : ∀ p, P p → Q (f p a₀)) :
    ∀ (l : List α), a₀ ∈ l → ∀ p, P p → Q (l.foldl f p) := by
  intro l
  induction l with
  | nil => intro ha; cases ha
  | cons a rest ih =>
    intro ha p hp
    rcases List.mem_cons.mp ha with h | h
    · subst h
      exact foldl_preserve f Q hQ rest _ (htrig p hp)
    · exact ih h (f p a) (hP p a hp)

/-- An `element.added` event for subscription `i` has been emitted, and the
reported handle maps (in the current store) to an element matching the
subscription's strategy and value. -/
def ScanGood (env : Platform) (i : Nat) (rec : Subscription)
    (p : EngineState × List CEvent) : Prop :=
  ∃ eid e', eid < p.1.nextId ∧
    CEvent.elementAdded rec.strategy rec.value eid i ∈ p.2 ∧
    mapGet p.1.elementStore eid = some e' ∧
    elementMatchesStrategy env e' rec.strategy rec.value = true

/-- Scan invariant: the store is key-bounded, subscription keys are nodup,
and the subscription is either still retained or has already fired. -/
def ScanInv (env : Platform) (i : Nat) (rec : Subscription)
    (p : EngineState × List CEvent) : Prop :=
  mapKeysBelow p.1.elementStore p.1.nextId ∧
  (p.1.subscriptions.map Prod.fst).Nodup ∧
  (mapGet p.1.subscriptions i = some rec ∨ ScanGood env i rec p)

/-- `ScanGood` survives processing one more element. -/
theorem scanGood_stepE (env : Platform) (i : Nat) (rec : Subscription)
    (p : EngineState × List CEvent) (e : Elem)
    (h : ScanGood env i rec p) :
    ScanGood env i rec ((checkElementAgainstSubscriptions env e p.1).1,
      p.2 ++ (checkElementAgainstSubscriptions env e p.1).2) := by
  obtain ⟨eid, e', h1, h2, h3, h4⟩ := h
  obtain ⟨f1, f2, -, -⟩ := checkElement_frame env e p.1
  exact ⟨eid, e', Nat.lt_of_lt_of_le h1 f1,
    List.mem_append_left _ h2, (f2 eid h1).trans h3, h4⟩

/-- `ScanInv` survives processing one more element. -/
theorem scanInv_stepE (env : Platform) (i : Nat) (rec : Subscription)
    (p : EngineState × List CEvent) (e : Elem)
    (h : ScanInv env i rec p) :
    ScanInv env i rec ((checkElementAgainstSubscriptions env e p.1).1,
      p.2 ++ (checkElementAgainstSubscriptions env e p.1).2) := by
  obtain ⟨hwf, hnd, hdis⟩ := h
  obtain ⟨-, -, f3, f4⟩ := checkElement_frame env e p.1
  refine ⟨f3 hwf, f4 hnd, ?_⟩
  rcases hdis with hret | hgood
  · cases hm : elementMatchesStrategy env e rec.strategy rec.value with
    | false => exact Or.inl (checkElement_retain env e p.1 i rec hret hnd hm)
    | true =>
      obtain ⟨eid, h1, h2, h3⟩ := checkElement_hit env e p.1 i rec hret hm hwf
      exact Or.inr ⟨eid, e, h1, List.mem_append_right _ h2, h3, hm⟩
  · exact Or.inr (scanGood_stepE env i rec p e hgood)

/-- A matching element turns a `ScanInv` state into a fired state. -/
theorem scanTrig_stepE (env : Platform) (i : Nat) (rec : Subscription)
    (p : EngineState × List CEvent) (e : Elem)
    (hm : elementMatchesStrategy env e rec.strategy rec.value = true)
    (h : ScanInv env i rec p) :
    ScanGood env i rec ((checkElementAgainstSubscriptions env e p.1).1,
      p.2 ++ (checkElementAgainstSubscriptions env e p.1).2) := by
  obtain ⟨hwf, hnd, hdis⟩ := h
  rcases hdis with hret | hgood
  · obtain ⟨eid, h1, h2, h3⟩ := checkElement_hit env e p.1 i rec hret hm hwf
    exact ⟨eid, e, h1, List.mem_append_right _ h2, h3, hm⟩
  · exact scanGood_stepE env i rec p e hgood

/-- Frame lemma for processing one inserted node and its subtree. -/
theorem checkAdded_frame (env : Platform) (nd : Elem) (S : EngineState) :
    S.nextId ≤ (checkAddedNodeAndDescendants env nd S).1.nextId ∧
    (∀ k, k < S.nextId →
      mapGet (checkAddedNodeAndDescendants env nd S).1.elementStore k =
        mapGet S.elementStore k) ∧
    (mapKeysBelow S.elementStore S.nextId →
      mapKeysBelow (checkAddedNodeAndDescendants env nd S).1.elementStore
        (checkAddedNodeAndDescendants env nd S).1.nextId) ∧
    ((S.subscriptions.map Prod.fst).Nodup →
      ((checkAddedNodeAndDescendants env nd S).1.subscriptions.map
        Prod.fst).Nodup) := by
  have h := foldl_preserve
    (fun (p : EngineState × List CEvent) e =>
      let q := checkElementAgainstSubscriptions env e p.1
      (q.1, p.2 ++ q.2))
    (fun p => S.nextId ≤ p.1.nextId ∧
      (∀ k, k < S.nextId → mapGet p.1.elementStore k = mapGet S.elementStore k) ∧
      (mapKeysBelow S.elementStore S.nextId →
        mapKeysBelow p.1.elementStore p.1.nextId) ∧
      ((S.subscriptions.map Prod.fst).Nodup →
        (p.1.subscriptions.map Prod.fst).Nodup))
    (fun p e hp => by
      obtain ⟨h1, h2, h3, h4⟩ := hp
      obtain ⟨f1, f2, f3, f4⟩ := checkElement_frame env e p.1
      refine ⟨Nat.le_trans h1 f1, ?_, fun hwf => f3 (h3 hwf), fun hnd => f4 (h4 hnd)⟩
      intro k hk
      exact (f2 k (Nat.lt_of_lt_of_le hk h1)).trans (h2 k hk))
    (Elem.preorder nd) (S, [])
    ⟨Nat.le_refl _, fun k _ => rfl, fun hwf => hwf, fun hnd => hnd⟩
  exact h

/-- `ScanInv` survives processing one inserted node and its subtree (with the
produced events appended to the accumulator). -/
theorem scanInv_stepA (env : Platform) (i : Nat) (rec : Subscription)
    (p : EngineState × List CEvent) (nd : Elem)
    (h : ScanInv env i rec p) :
    ScanInv env i rec ((checkAddedNodeAndDescendants env nd p.1).1,
      p.2 ++ (checkAddedNodeAndDescendants env nd p.1).2) := by
  obtain ⟨hwf, hnd, hdis⟩ := h
  obtain ⟨f1, f2, f3, f4⟩ := checkAdded_frame env nd p.1
  rcases hdis with hret | hgood
  · have hfold := foldl_preserve
      (fun (q : EngineState × List CEvent) e =>
        let r := checkElementAgainstSubscriptions env e q.1
        (r.1, q.2 ++ r.2))
      (ScanInv env i rec)
      (fun q e hq => scanInv_stepE env i rec q e hq)
      (Elem.preorder nd) (p.1, []) ⟨hwf, hnd, Or.inl hret⟩
    obtain ⟨g1, g2, g3⟩ := hfold
    refine ⟨g1, g2, ?_⟩
    rcases g3 with gret | ggood
    · exact Or.inl gret
    · obtain ⟨eid, e', k1, k2, k3, k4⟩ := ggood
      exact Or.inr ⟨eid, e', k1, List.mem_append_right _ k2, k3, k4⟩
  · refine ⟨f3 hwf, f4 hnd, Or.inr ?_⟩
    obtain ⟨eid, e', k1, k2, k3, k4⟩ := hgood
    exact ⟨eid, e', Nat.lt_of_lt_of_le k1 f1,
      List.mem_append_left _ k2, (f2 eid k1).trans k3, k4⟩

/-- `ScanGood` survives processing one inserted node and its subtree. -/
theorem scanGood_stepA (env : Platform) (i : Nat) (rec : Subscription)
    (p : EngineState × List CEvent) (nd : Elem)
    (h : ScanGood env i rec p) :
    ScanGood env i rec ((checkAddedNodeAndDescendants env nd p.1).1,
      p.2 ++ (checkAddedNodeAndDescendants env nd p.1).2) := by
  obtain ⟨f1, f2, -, -⟩ := checkAdded_frame env nd p.1
  obtain ⟨eid, e', k1, k2, k3, k4⟩ := h
  exact ⟨eid, e', Nat.lt_of_lt_of_le k1 f1,
    List.mem_append_left _ k2, (f2 eid k1).trans k3, k4⟩

/-- An inserted node whose subtree contains a matching element turns a
`ScanInv` state into a fired state. -/
theorem scanTrig_stepA (env : Platform) (i : Nat) (rec : Subscription)
    (p : EngineState × List CEvent) (nd e : Elem)
    (he : e ∈ Elem.preorder nd)
    (hm : elementMatchesStrategy env e rec.strategy rec.value = true)
    (h : ScanInv env i rec p) :
    ScanGood env i rec ((checkAddedNodeAndDescendants env nd p.1).1,
      p.2 ++ (checkAddedNodeAndDescendants env nd p.1).2) := by
  obtain ⟨hwf, hnd, hdis⟩ := h
  rcases hdis with hret | hgood
  · have hfold := foldl_reach
      (fun (q : EngineState × List CEvent) x =>
        let r := checkElementAgainstSubscriptions env x q.1
        (r.1, q.2 ++ r.2))
      (ScanInv env i rec) (ScanGood env i rec)
      (fun q x hq => scanInv_stepE env i rec q x hq)
      (fun q x hq => scanGood_stepE env i rec q x hq)
      e (fun q hq => scanTrig_stepE env i rec q e hm hq)
      (Elem.preorder nd) he (p.1, []) ⟨hwf, hnd, Or.inl hret⟩
    obtain ⟨eid, e', k1, k2, k3, k4⟩ := hfold
    exact ⟨eid, e', k1, List.mem_append_right _ k2, k3, k4⟩
  · exact scanGood_stepA env i rec p nd hgood

/-- Removed-node processing leaves subscriptions, store and counter alone. -/
theorem checkRemoved_frame (nd : Elem) (S : EngineState) :
    (checkRemovedNode nd S).1.subscriptions = S.subscriptions ∧
    (checkRemovedNode nd S).1.elementStore = S.elementStore ∧
    (checkRemovedNode nd S).1.nextId = S.nextId :=
  ⟨rfl, rfl, rfl⟩

/-- `ScanInv` survives removed-node processing. -/
theorem scanInv_stepR (env : Platform) (i : Nat) (rec : Subscription)
    (p : EngineState × List CEvent) (nd : Elem)
    (h : ScanInv env i rec p) :
    ScanInv env i rec ((checkRemovedNode nd p.1).1,
      p.2 ++ (checkRemovedNode nd p.1).2) := by
  obtain ⟨hwf, hnd, hdis⟩ := h
  refine ⟨hwf, hnd, ?_⟩
  rcases hdis with hret | hgood
  · exact Or.inl hret
  · obtain ⟨eid, e', k1, k2, k3, k4⟩ := hgood
    exact Or.inr ⟨eid, e', k1, List.mem_append_left _ k2, k3, k4⟩

/-- `ScanGood` survives removed-node processing. -/
theorem scanGood_stepR (env : Platform) (i : Nat) (rec : Subscription)
    (p : EngineState × List CEvent) (nd : Elem)
    (h : ScanGood env i rec p) :
    ScanGood env i rec ((checkRemovedNode nd p.1).1,
      p.2 ++ (checkRemovedNode nd p.1).2) := by
  obtain ⟨eid, e', k1, k2, k3, k4⟩ := h
  exact ⟨eid, e', k1, List.mem_append_left _ k2, k3, k4⟩

/-- A retained key forces a nonempty table. -/
theorem mapGet_isEmpty_false {α : Type} (m : JsMap α) (k : Nat) (v : α)
    (h : mapGet m k = some v) : m.isEmpty = false := by
  cases m with
  | nil => simp [mapGet] at h
  | cons p rest => rfl

/-- `ScanInv` survives processing one full mutation record. -/
theorem scanInv_stepM (env : Platform) (i : Nat) (rec : Subscription)
    (p : EngineState × List CEvent) (mrec : MutationRec)
    (h : ScanInv env i rec p) :
    ScanInv env i rec
      (mrec.removed.foldl
        (fun p' nd =>
          let r := checkRemovedNode nd p'.1
          (r.1, p'.2 ++ r.2))
        (mrec.added.foldl
          (fun p' nd =>
            let r := checkAddedNodeAndDescendants env nd p'.1
            (r.1, p'.2 ++ r.2)) p)) := by
  refine foldl_preserve
    (fun (p' : EngineState × List CEvent) nd =>
      let r := checkRemovedNode nd p'.1
      (r.1, p'.2 ++ r.2))
    (ScanInv env i rec)
    (fun q nd hq => scanInv_stepR env i rec q nd hq) mrec.removed _ ?_
  exact foldl_preserve
    (fun (p' : EngineState × List CEvent) nd =>
      let r := checkAddedNodeAndDescendants env nd p'.1
      (r.1, p'.2 ++ r.2))
    (ScanInv env i rec)
    (fun q nd hq => scanInv_stepA env i rec q nd hq) mrec.added p h

/-- `ScanGood` survives processing one full mutation record. -/
theorem scanGood_stepM (env : Platform) (i : Nat) (rec : Subscription)
    (p : EngineState × List CEvent) (mrec : MutationRec)
    (h : ScanGood env i rec p) :
    ScanGood env i rec
      (mrec.removed.foldl
        (fun p' nd =>
          let r := checkRemovedNode nd p'.1
          (r.1, p'.2 ++ r.2))
        (mrec.added.foldl
          (fun p' nd =>
            let r := checkAddedNodeAndDescendants env nd p'.1
            (r.1, p'.2 ++ r.2)) p)) := by
  refine foldl_preserve
    (fun (p' : EngineState × List CEvent) nd =>
      let r := checkRemovedNode nd p'.1
      (r.1, p'.2 ++ r.2))
    (ScanGood env i rec)
    (fun q nd hq => scanGood_stepR env i rec q nd hq) mrec.removed _ ?_
  exact foldl_preserve
    (fun (p' : EngineState × List CEvent) nd =>
      let r := checkAddedNodeAndDescendants env nd p'.1
      (r.1, p'.2 ++ r.2))
    (ScanGood env i rec)
    (fun q nd hq => scanGood_stepA env i rec q nd hq) mrec.added p h

/-- A mutation record inserting a node whose subtree has a matching element
turns a `ScanInv` state into a fired state. -/
theorem scanTrig_stepM (env : Platform) (i : Nat) (rec : Subscription)
    (p : EngineState × List CEvent) (mrec : MutationRec) (nd e : Elem)
    (hnd : nd ∈ mrec.added) (he : e ∈ Elem.preorder nd)
    (hm : elementMatchesStrategy env e rec.strategy rec.value = true)
    (h : ScanInv env i rec p) :
    ScanGood env i rec
      (mrec.removed.foldl
        (fun p' x =>
          let r := checkRemovedNode x p'.1
          (r.1, p'.2 ++ r.2))
        (mrec.added.foldl
          (fun p' x =>
            let r := checkAddedNodeAndDescendants env x p'.1
            (r.1, p'.2 ++ r.2)) p)) := by
  refine foldl_preserve
    (fun (p' : EngineState × List CEvent) x =>
      let r := checkRemovedNode x p'.1
      (r.1, p'.2 ++ r.2))
    (ScanGood env i rec)
    (fun q x hq => scanGood_stepR env i rec q x hq) mrec.removed _ ?_
  exact foldl_reach
    (fun (p' : EngineState × List CEvent) x =>
      let r := checkAddedNodeAndDescendants env x p'.1
      (r.1, p'.2 ++ r.2))
    (ScanInv env i rec) (ScanGood env i rec)
    (fun q x hq => scanInv_stepA env i rec q x hq)
    (fun q x hq => scanGood_stepA env i rec q x hq)
    nd (fun q hq => scanTrig_stepA env i rec q nd e he hm hq)
    mrec.added hnd p h

/-- C6 (amended): for every retained subscription, when a mutation batch
inserts a node such that the node or any of its descendants satisfies the
subscription's strategy and value under the engine's per-element matcher
(`elementMatchesStrategy` — which deliberately never matches for the
path-query/XPath strategy), the engine emits an `element.added` notification
for that subscription and stores an element handle mapping to a matching
element.  Detection works anywhere in the inserted subtree. -/
theorem claim6_amended_mutation_subtree_match
    (env : Platform) (muts : List MutationRec) (st : EngineState)
    (i : Nat) (rec : Subscription) (mrec : MutationRec) (nd e : Elem)
    (hget : mapGet st.subscriptions i = some rec)
    (hnodup : (st.subscriptions.map Prod.fst).Nodup)
    (hwf : mapKeysBelow st.elementStore st.nextId)
    (hmrec : mrec ∈ muts) (hnd : nd ∈ mrec.added)
    (he : e ∈ Elem.preorder nd)
    (hm : elementMatchesStrategy env e rec.strategy rec.value = true) :
    ∃ eid e',
      CEvent.elementAdded rec.strategy rec.value eid i ∈
        (handleMutations env muts st).2 ∧
      mapGet (handleMutations env muts st).1.elementStore eid = some e' ∧
      elementMatchesStrategy env e' rec.strategy rec.value = true := by
  have hne : st.subscriptions.isEmpty = false := mapGet_isEmpty_false _ _ _ hget
  have hreach := foldl_reach
    (fun (p : EngineState × List CEvent) mr =>
      let q := mr.added.foldl
        (fun p' nd' =>
          let r := checkAddedNodeAndDescendants env nd' p'.1
          (r.1, p'.2 ++ r.2)) p
      mr.removed.foldl
        (fun p' nd' =>
          let r := checkRemovedNode nd' p'.1
          (r.1, p'.2 ++ r.2)) q)
    (ScanInv env i rec) (ScanGood env i rec)
    (fun q mr hq => scanInv_stepM env i rec q mr hq)
    (fun q mr hq => scanGood_stepM env i rec q mr hq)
    mrec (fun q hq => scanTrig_stepM env i rec q mrec nd e hnd he hm hq)
    muts hmrec (st, []) ⟨hwf, hnodup, Or.inl hget⟩
  obtain ⟨eid, e', k1, k2, k3, k4⟩ := hreach
  simp only [handleMutations, hne, Bool.false_eq_true, if_false]
  exact ⟨eid, e', k2, k3, k4⟩

/-- Fixture: a div element, used as an inserted node. -/
def divX : Elem := Elem.node 7 "div" "" [] [] "" []

/-- Fixture: a platform whose XPath engine resolves "//div" to the first div
of the searched tree (CSS matches nothing). -/
def envX : Platform :=
  { cssMatches := fun _ _ => false,
    xpathFind := fun d q =>
      if q == "//div" then (Elem.preorder d).find? (fun e => e.tag == "div")
      else none }

/-- Fixture: a retained pending oneShot subscription with the path-query
(XPath) strategy. -/
def subXp : Subscription :=
  { id := 1, strategy := "xpath", value := "//div", oneShot := true }

/-- Fixture: an engine state retaining only `subXp`. -/
def stX : EngineState :=
  { subscriptions := [(1, subXp)], removalWatches := [], attributeWatches := [],
    elementStore := [], observerRunning := true,
    attributeObserverRunning := false, observedAttrTargets := [], nextId := 2 }

/-- C6 counterexample: the pending path-query subscription `subXp` is
retained, and the inserted node `divX` satisfies its strategy and value (the
engine's own call-time finder locates it in the inserted subtree), yet the
mutation batch emits no notification at all and stores no element handle —
the per-element scan never matches XPath subscriptions. -/
theorem claim6_counterexample_xpath :
    mapGet stX.subscriptions 1 = some subXp ∧
    findByStrategy envX divX "xpath" "//div" = some divX ∧
    (handleMutations envX [{ added := [divX], removed := [] }] stX).2 = [] ∧
    (handleMutations envX [{ added := [divX], removed := [] }] stX).1.elementStore = [] := by
  refine ⟨rfl, rfl, rfl, rfl⟩

/-- Fixture: a span with id "target", nested inside an inserted container. -/
def spanTarget : Elem := Elem.node 4 "span" "target" [] [] "" []

/-- Fixture: a container div whose subtree holds `spanTarget`. -/
def divContainer : Elem := Elem.node 3 "div" "" [] [] "" [spanTarget]

/-- Fixture: a retained pending id-strategy subscription. -/
def subId6 : Subscription :=
  { id := 1, strategy := "id", value := "target", oneShot := true }

/-- Fixture: an engine state retaining only `subId6`. -/
def st6 : EngineState :=
  { subscriptions := [(1, subId6)], removalWatches := [], attributeWatches := [],
    elementStore := [], observerRunning := true,
    attributeObserverRunning := false, observedAttrTargets := [], nextId := 2 }

/-- Concrete instantiation of the amended C6: inserting `divContainer` fires
the retained id-subscription on the nested `spanTarget`, storing a matching
element under the reported handle. -/
theorem claim6_amended_witness :
    ∃ eid e',
      CEvent.elementAdded "id" "target" eid 1 ∈
        (handleMutations envFalse [{ added := [divContainer], removed := [] }] st6).2 ∧
      mapGet (handleMutations envFalse
        [{ added := [divContainer], removed := [] }] st6).1.elementStore eid =
          some e' ∧
      elementMatchesStrategy envFalse e' "id" "target" = true := by
  have h := claim6_amended_mutation_subtree_match envFalse
    [{ added := [divContainer], removed := [] }] st6 1 subId6
    { added := [divContainer], removed := [] } divContainer spanTarget
    rfl (by simp [st6]) (by simp [mapKeysBelow, st6])
    (List.mem_singleton.mpr rfl) (List.mem_singleton.mpr rfl)
    (by simp [Elem.preorder, preorderList, divContainer, spanTarget]) rfl
  exact h

/-- Fixture: first element watched for attribute changes. -/
def elmA1 : Elem := Elem.node 1 "div" "a1" [] [] "" []

/-- Fixture: second element watched for attribute changes. -/
def elmA2 : Elem := Elem.node 2 "div" "a2" [] [] "" []

/-- Fixture: a document containing both watched elements. -/
def doc7 : Elem := Elem.node 0 "html" "" [] [] "" [elmA1, elmA2]

/-- Fixture: engine state with both elements stored and no watch yet. -/
def st70 : EngineState :=
  { subscriptions := [], removalWatches := [], attributeWatches := [],
    elementStore := [(11, elmA1), (12, elmA2)], observerRunning := true,
    attributeObserverRunning := false, observedAttrTargets := [], nextId := 20 }

/-- Fixture: state after the first attribute watch (element 11 / `elmA1`);
this call lazily starts the attribute observer. -/
def st71 : EngineState := (watchAttribute doc7 11 none st70).2

/-- Fixture: state after a second attribute watch (element 12 / `elmA2`)
added while the attribute observer is already running. -/
def st72 : EngineState := (watchAttribute doc7 12 none st71).2

/-- C7 at its failing input: the second watch is accepted and retained as an
active attribute watch, and the first watch's element still produces
notifications, but an attribute change on the second watch's element
produces no `element.attributeChanged` notification at all, because
`startAttributeObserver` returns early when already running and never
observes the newly watched element. -/
theorem claim7_second_watch_never_fires :
    (watchAttribute doc7 12 none st71).1 = ObserverResponse.ok ∧
    mapGet st72.attributeWatches 12 =
      some { elementId := 12, element := elmA2, attributeName := none } ∧
    st72.attributeObserverRunning = true ∧
    dispatchAttrChange st72
      { targetNid := 1, attributeName := "class", oldValue := some "a",
        newValue := some "b" } =
      [CEvent.attributeChanged 11 "class" (some "a") (some "b")] ∧
    dispatchAttrChange st72
      { targetNid := 2, attributeName := "class", oldValue := some "a",
        newValue := some "b" } = [] := by
  refine ⟨rfl, rfl, rfl, rfl, rfl⟩

/-- Fixture: a node that is not part of `docW`. -/
def btnDetached : Elem := Elem.node 99 "div" "gone" [] [] "" []

/-- Fixture: an element store holding one detached and one attached node. -/
def store9 : JsMap Elem := [(5, btnDetached), (6, btnLogin)]

/-- Concrete instantiation of C9 on `store9` against `docW`: absent handle 7
fails with no-such-element, detached handle 5 is evicted with stale-element,
and attached handle 6 is found. -/
theorem claim9_witness :
    getElement docW store9 7 =
      (ElementLookup.failure "Element not found: 7" "no such element", store9) ∧
    getElement docW store9 5 =
      (ElementLookup.failure "Element is stale: 5" "stale element",
        [(6, btnLogin)]) ∧
    (isElementAttached docW btnLogin = true ∧ mapGet store9 6 = some btnLogin ∧
      store9 = store9) := by
  have h := claim9_element_lookup_validation docW store9 7
  have h5 := claim9_element_lookup_validation docW store9 5
  have h6 := claim9_element_lookup_validation docW store9 6
  refine ⟨h.1 (by rfl), ?_, ?_⟩
  · exact h5.2.1 btnDetached (by rfl) (by rfl)
  · exact h6.2.2 btnLogin store9 (by rfl)

/-! ### Background-side subscription coordinator (src/unnamed/part_008,
modules/element/observer) -/

namespace BG

/-- Outcome of the caller's promise for one coordinator subscription. -/
inductive SubOutcome : Type where
  | pending
  | fulfilled (subscriptionId : Nat) (elementId : Option Nat)
  | rejected (name : String) (message : String)
deriving DecidableEq

/-- An `ActiveSubscription` record (part_008 lines 64-75).  The `resolve` /
`reject` callbacks are modelled by the coordinator's outcome map; the armed
timer is determined by `timeoutMs` exactly as in the source
(`timeout && timeout > 0`). -/
structure ActiveSubscription : Type where
  subscriptionId : Nat
  strategy : String
  value : String
  oneShot : Bool
  tabId : Nat
  frameId : Nat
  resolved : Bool
  timeoutMs : Option Nat
deriving DecidableEq

/-- Is a timeout timer armed for this record? -/
def ActiveSubscription.timerArmed (sub : ActiveSubscription) : Bool :=
  match sub.timeoutMs with
  | some t => decide (0 < t)
  | none => false

/-- Coordinator state: the per-tab `activeSubscriptions` lists, the promise
outcomes keyed by coordinator subscriptionId, and the UUID counter
(`crypto.randomUUID` draws). -/
structure CoordState : Type where
  activeSubscriptions : JsMap (List ActiveSubscription)
  outcomes : JsMap SubOutcome
  nextId : Nat

/-- The coordinator together with the current top frame's observation
engine. -/
structure SystemState : Type where
  coord : CoordState
  engine : EngineState

/-- The settle delay before re-sending subscriptions after navigation
(part_008 line 300: `setTimeout(r, 200)`). -/
def settleDelayMs : Nat := 200

/-- The cross-context `ELEMENT_SUBSCRIBE` message built by `trySubscribe`
(part_008 lines 84-96): it carries only strategy, value and oneShot. -/
structure SubscribeMessage : Type where
  strategy : String
  value : String
  oneShot : Bool
deriving DecidableEq

/-- The message `trySubscribe` sends for a given record. -/
def trySubscribeMessage (sub : ActiveSubscription) : SubscribeMessage :=
  { strategy := sub.strategy, value := sub.value, oneShot := sub.oneShot }

/-- `trySubscribe` delivered to the frame: the content script's
`ELEMENT_SUBSCRIBE` handler runs `subscribe` on the frame's engine. -/
def trySubscribe (env : Platform) (doc : Elem) (msg : SubscribeMessage)
    (eng : EngineState) : ObserverResponse × EngineState :=
  Content.subscribe env doc msg.strategy msg.value msg.oneShot eng

/-- Find a tab's record by coordinator subscriptionId. -/
def findSub (c : CoordState) (tabId subId : Nat) : Option ActiveSubscription :=
  match mapGet c.activeSubscriptions tabId with
  | none => none
  | some subs => subs.find? (fun s => s.subscriptionId == subId)

/-- `removeSubscription` (part_008 lines 241-256): clear the timer, filter
the record out, and drop the tab's entry when the list empties. -/
def removeSubscription (c : CoordState) (tabId subId : Nat) : CoordState :=
  match mapGet c.activeSubscriptions tabId with
  | none => c
  | some subs =>
    let filtered := subs.filter (fun s => s.subscriptionId != subId)
    if filtered.isEmpty then
      { c with activeSubscriptions := mapDelete c.activeSubscriptions tabId }
    else
      { c with activeSubscriptions := mapSet c.activeSubscriptions tabId filtered }

/-- Settle a promise: JavaScript promises settle at most once, so a second
resolution attempt is a no-op. -/
def settleOutcome (c : CoordState) (subId : Nat) (o : SubOutcome) : CoordState :=
  match mapGet c.outcomes subId with
  | some SubOutcome.pending => { c with outcomes := mapSet c.outcomes subId o }
  | _ => c

/-- `sendSubscribeToContentScript` (part_008 lines 194-239): skip if the
record is already resolved; a failed delivery (frame torn down, modelled by
`frameDoc = none`) is swallowed; an unsuccessful engine response is logged
and left pending; an immediate match resolves the caller's promise with the
coordinator's subscriptionId and the frame's elementId and removes the
record; otherwise the record stays pending. -/
def sendSubscribeToContentScript (env : Platform) (frameDoc : Option Elem)
    (tabId subId : Nat) (sys : SystemState) : SystemState :=
  match findSub sys.coord tabId subId with
  | none => sys
  | some sub =>
    if sub.resolved then sys
    else
      match frameDoc with
      | none => sys
      | some doc =>
        let r := trySubscribe env doc (trySubscribeMessage sub) sys.engine
        match r.1 with
        | ObserverResponse.subOk _ (some elementId) =>
          { coord := settleOutcome (removeSubscription sys.coord tabId subId)
              subId (SubOutcome.fulfilled subId (some elementId)),
            engine := r.2 }
        | _ => { sys with engine := r.2 }

/-- `handleSubscribe`, oneShot path (part_008 lines 141-192): allocate a
coordinator subscriptionId, append the durable record to the tab's list,
create the pending promise, and immediately attempt the forward. -/
def handleSubscribeOneShot (env : Platform) (frameDoc : Option Elem)
    (strategy value : String) (timeout : Option Nat) (tabId frameId : Nat)
    (sys : SystemState) : Nat × SystemState :=
  let subId := sys.coord.nextId
  let sub : ActiveSubscription :=
    { subscriptionId := subId, strategy := strategy, value := value,
      oneShot := true, tabId := tabId, frameId := frameId, resolved := false,
      timeoutMs := timeout }
  let subs := (mapGet sys.coord.activeSubscriptions tabId).getD []
  let coord' : CoordState :=
    { activeSubscriptions :=
        mapSet sys.coord.activeSubscriptions tabId (subs ++ [sub]),
      outcomes := mapSet sys.coord.outcomes subId SubOutcome.pending,
      nextId := sys.coord.nextId + 1 }
  (subId, sendSubscribeToContentScript env frameDoc tabId subId
    { sys with coord := coord' })

/-- The timeout timer firing (part_008 lines 158-181): if still unresolved,
remove the record, best-effort send `ELEMENT_UNSUBSCRIBE` to the frame
(whose result is ignored), and reject the caller's promise with a Timeout
condition naming the strategy and value. -/
def fireTimeout (tabId subId : Nat) (sys : SystemState) : SystemState :=
  match findSub sys.coord tabId subId with
  | none => sys
  | some sub =>
    if sub.resolved then sys
    else
      let coord' := removeSubscription sys.coord tabId subId
      let engine' := (Content.unsubscribe subId sys.engine).2
      let message := "Element not found within " ++
        toString (sub.timeoutMs.getD 0) ++ "ms: " ++ sub.strategy ++ "=\x22" ++
        sub.value ++ "\x22"
      { coord := settleOutcome coord' subId (SubOutcome.rejected "timeout" message),
        engine := engine' }

/-- `handleElementAddedEvent` (part_008 lines 259-286): the first unresolved
record of the tab with the same strategy and value is resolved with the
reported elementId and removed. -/
def handleElementAddedEvent (tabId elementId : Nat) (strategy value : String)
    (c : CoordState) : CoordState :=
  match mapGet c.activeSubscriptions tabId with
  | none => c
  | some subs =>
    match subs.find? (fun s =>
        s.strategy == strategy && s.value == value && !s.resolved) with
    | none => c
    | some sub =>
      settleOutcome (removeSubscription c tabId sub.subscriptionId)
        sub.subscriptionId
        (SubOutcome.fulfilled sub.subscriptionId (some elementId))

/-- `resendSubscriptionsAfterNavigation` (part_008 lines 289-307): nothing to
do without records; otherwise wait the settle delay, then re-send every
record that is still unresolved.  The returned number is the delay waited
before the re-sends. -/
def resendSubscriptionsAfterNavigation (env : Platform) (newDoc : Elem)
    (tabId : Nat) (sys : SystemState) : Nat × SystemState :=
  match mapGet sys.coord.activeSubscriptions tabId with
  | none => (0, sys)
  | some subs =>
    if subs.isEmpty then (0, sys)
    else
      (settleDelayMs,
        subs.foldl
          (fun s sub =>
            if sub.resolved then s
            else sendSubscribeToContentScript env (some newDoc) tabId
              sub.subscriptionId s)
          sys)

/-- The `webNavigation.onCompleted` listener (part_008 lines 310-317):
navigation destroys the frame's engine (a fresh content script starts with
`initObserver`), and only a top-level (`frameId = 0`) completion triggers
the re-send. -/
def processNavigationCompleted (env : Platform) (frameId tabId : Nat)
    (newDoc : Elem) (sys : SystemState) : Nat × SystemState :=
  if frameId = 0 then
    resendSubscriptionsAfterNavigation env newDoc tabId
      { sys with engine := initialEngineState }
  else (0, sys)

/-- `handleUnsubscribe` (part_008 lines 345-364): forward
`ELEMENT_UNSUBSCRIBE` to the frame's engine and throw the engine's error
text when the response is unsuccessful. -/
def handleUnsubscribe (subId : Nat) (sys : SystemState) :
    Except String Unit × SystemState :=
  let r := Content.unsubscribe subId sys.engine
  match r.1 with
  | ObserverResponse.err e _ => (Except.error e, { sys with engine := r.2 })
  | _ => (Except.ok (), { sys with engine := r.2 })

/-- The coordinator ids appearing in a tab's list. -/
def listedIds (c : CoordState) (tabId : Nat) : List Nat :=
  ((mapGet c.activeSubscriptions tabId).getD []).map
    (fun s => s.subscriptionId)

end BG

open BG

/-! ### Coordinator helper lemmas -/

theorem removeSubscription_cases (c : CoordState) (t j : Nat) :
    (mapGet c.activeSubscriptions t = none ∧ removeSubscription c t j = c) ∨
    (∃ subs, mapGet c.activeSubscriptions t = some subs ∧
      (subs.filter (fun s => s.subscriptionId != j)) = [] ∧
      mapGet (removeSubscription c t j).activeSubscriptions t = none) ∨
    (∃ subs, mapGet c.activeSubscriptions t = some subs ∧
      mapGet (removeSubscription c t j).activeSubscriptions t =
        some (subs.filter (fun s => s.subscriptionId != j))) := by
  unfold removeSubscription
  cases hm : mapGet c.activeSubscriptions t with
  | none => exact Or.inl ⟨rfl, rfl⟩
  | some subs =>
    by_cases he : (subs.filter (fun s => s.subscriptionId != j)).isEmpty = true
    · refine Or.inr (Or.inl ⟨subs, rfl, List.isEmpty_iff.mp he, ?_⟩)
      simp only [he, if_true]
      exact mapGet_delete_self _ _
    · refine Or.inr (Or.inr ⟨subs, rfl, ?_⟩)
      simp only [he, if_false]
      exact mapGet_set_self _ _ _

theorem removeSubscription_outcomes (c : CoordState) (t i : Nat) :
    (removeSubscription c t i).outcomes = c.outcomes := by
  unfold removeSubscription
  cases hm : mapGet c.activeSubscriptions t with
  | none => rfl
  | some subs =>
    by_cases he : (subs.filter (fun s => s.subscriptionId != i)).isEmpty = true
    · simp only [he, if_true]
    · simp only [he, if_false]
      rfl

theorem settleOutcome_activeSubscriptions (c : CoordState) (k : Nat)
    (o : SubOutcome) :
    (settleOutcome c k o).activeSubscriptions = c.activeSubscriptions := by
  unfold settleOutcome
  cases mapGet c.outcomes k with
  | none => rfl
  | some oc => cases oc <;> rfl

theorem settleOutcome_get_ne (c : CoordState) (k j : Nat) (o : SubOutcome)
    (h : j ≠ k) :
    mapGet (settleOutcome c k o).outcomes j = mapGet c.outcomes j := by
  unfold settleOutcome
  cases mapGet c.outcomes k with
  | none => rfl
  | some oc =>
    cases oc with
    | pending => exact mapGet_set_ne _ _ _ _ h
    | fulfilled a b => rfl
    | rejected a b => rfl

theorem settleOutcome_get_self (c : CoordState) (k : Nat) (o : SubOutcome)
    (h : mapGet c.outcomes k = some SubOutcome.pending) :
    mapGet (settleOutcome c k o).outcomes k = some o := by
  unfold settleOutcome
  rw [h]
  exact mapGet_set_self _ _ _

theorem notListed_remove_self (c : CoordState) (t i : Nat) :
    i ∉ listedIds (removeSubscription c t i) t := by
  intro h
  rcases removeSubscription_cases c t i with ⟨hnone, heq⟩ | hmid | ⟨subs, hsubs, hsome⟩
  · rw [heq] at h
    simp [listedIds, hnone] at h
  · obtain ⟨subs, -, -, hnone⟩ := hmid
    simp [listedIds, hnone] at h
  · simp only [listedIds, hsome, Option.getD_some, List.mem_map] at h
    obtain ⟨a, ha, hid⟩ := h
    have hfa := List.of_mem_filter ha
    rw [hid] at hfa
    simp at hfa

theorem notListed_remove_other (c : CoordState) (t i j : Nat)
    (h : i ∉ listedIds c t) : i ∉ listedIds (removeSubscription c t j) t := by
  intro hmem
  rcases removeSubscription_cases c t j with ⟨hnone, heq⟩ | hmid | ⟨subs, hsubs, hsome⟩
  · rw [heq] at hmem
    exact h hmem
  · obtain ⟨subs, -, -, hnone⟩ := hmid
    simp [listedIds, hnone] at hmem
  · simp only [listedIds, hsome, Option.getD_some, List.mem_map] at hmem
    obtain ⟨a, ha, hid⟩ := hmem
    refine h ?_
    simp only [listedIds, hsubs, Option.getD_some, List.mem_map]
    exact ⟨a, List.mem_of_mem_filter ha, hid⟩

theorem notListed_findSub (c : CoordState) (t i : Nat)
    (h : i ∉ listedIds c t) : findSub c t i = none := by
  unfold findSub
  cases hm : mapGet c.activeSubscriptions t with
  | none => rfl
  | some subs =>
    show subs.find? (fun s => s.subscriptionId == i) = none
    rw [List.find?_eq_none]
    intro a ha hp
    refine h ?_
    simp only [listedIds, hm, Option.getD_some, List.mem_map]
    exact ⟨a, ha, by simpa using hp⟩

theorem find?_filter_ne (subs : List ActiveSubscription) (i j : Nat)
    (h : i ≠ j) :
    (subs.filter (fun s => s.subscriptionId != j)).find?
        (fun s => s.subscriptionId == i) =
      subs.find? (fun s => s.subscriptionId == i) := by
  induction subs with
  | nil => rfl
  | cons a rest ih =>
    by_cases haj : a.subscriptionId = j
    · have h1 : (a.subscriptionId != j) = false := by simp [haj]
      have h2 : (a.subscriptionId == i) = false := by
        simp [haj]
        exact fun hh => h hh.symm
      rw [List.filter_cons, h1]
      simp only [Bool.false_eq_true, if_false]
      rw [List.find?_cons, h2]
      exact ih
    · have h1 : (a.subscriptionId != j) = true := by simp [haj]
      rw [List.filter_cons, h1]
      simp only [if_true]
      cases h2 : (a.subscriptionId == i) with
      | true => rw [List.find?_cons, h2, List.find?_cons, h2]
      | false => rw [List.find?_cons, h2, List.find?_cons, h2]; exact ih

theorem findSub_remove_other (c : CoordState) (t i j : Nat) (h : i ≠ j) :
    findSub (removeSubscription c t j) t i = findSub c t i := by
  rcases removeSubscription_cases c t j with ⟨hnone, heq⟩ | hmid | ⟨subs, hsubs, hsome⟩
  · rw [heq]
  · obtain ⟨subs, hsubs, hfil, hnone⟩ := hmid
    unfold findSub
    rw [hnone, hsubs]
    show none = subs.find? (fun s => s.subscriptionId == i)
    symm
    rw [List.find?_eq_none]
    intro a ha hp
    have hai : a.subscriptionId = i := by simpa using hp
    have : a ∈ subs.filter (fun s => s.subscriptionId != j) :=
      List.mem_filter.mpr ⟨ha, by simp [hai]; exact fun hh => h (hai ▸ hh)⟩
    rw [hfil] at this
    cases this
  · unfold findSub
    rw [hsome, hsubs]
    exact find?_filter_ne subs i j h

theorem findSub_id (c : CoordState) (t i : Nat) (sub : ActiveSubscription)
    (h : findSub c t i = some sub) : sub.subscriptionId = i := by
  unfold findSub at h
  cases hm : mapGet c.activeSubscriptions t with
  | none => rw [hm] at h; cases h
  | some subs =>
    rw [hm] at h
    have := List.find?_some h
    simpa using this

theorem handleElementAdded_outcome_frame (c : CoordState) (t eid i : Nat)
    (s v : String) (h : i ∉ listedIds c t) :
    mapGet (handleElementAddedEvent t eid s v c).outcomes i =
      mapGet c.outcomes i := by
  cases hm : mapGet c.activeSubscriptions t with
  | none => simp [handleElementAddedEvent, hm]
  | some subs =>
    cases hf : subs.find? (fun a =>
        a.strategy == s && a.value == v && !a.resolved) with
    | none => simp [handleElementAddedEvent, hm, hf]
    | some other =>
      have hmem := List.mem_of_find?_eq_some hf
      have hne : i ≠ other.subscriptionId := by
        intro hii
        refine h ?_
        simp only [listedIds, hm, Option.getD_some, List.mem_map]
        exact ⟨other, hmem, hii.symm⟩
      simp only [handleElementAddedEvent, hm, hf]
      rw [settleOutcome_get_ne _ _ _ _ hne, removeSubscription_outcomes]

/-! ### Engine-subscribe characterization lemmas -/

theorem subscribe_found_resp (env : Platform) (doc : Elem) (s v : String)
    (one : Bool) (st : EngineState) (el : Elem)
    (hvalid : validStrategies.contains s = true)
    (hel : findByStrategy env doc s v = some el) :
    (Content.subscribe env doc s v one st).1 =
      ObserverResponse.subOk st.nextId (some (st.nextId + 1)) ∧
    mapGet (Content.subscribe env doc s v one st).2.elementStore
      (st.nextId + 1) = some el ∧
    (Content.subscribe env doc s v one st).2.nextId = st.nextId + 2 := by
  have hmem : s ∈ validStrategies := by simpa using hvalid
  cases one <;>
    refine ⟨?_, ?_, ?_⟩ <;>
    simp [Content.subscribe, hmem, hel, mapGet_set_self]

theorem subscribe_nomatch_eq (env : Platform) (doc : Elem) (s v : String)
    (one : Bool) (st : EngineState)
    (hvalid : validStrategies.contains s = true)
    (hnone : findByStrategy env doc s v = none) :
    Content.subscribe env doc s v one st =
      (ObserverResponse.subOk st.nextId none,
       { st with observerRunning := true, nextId := st.nextId + 1, subscriptions := mapSet st.subscriptions st.nextId { id := st.nextId, strategy := s, value := v, oneShot := one } }) := by
  have hmem : s ∈ validStrategies := by simpa using hvalid
  simp [Content.subscribe, hmem, hnone]

theorem subscribe_found_eq (env : Platform) (doc : Elem) (s v : String)
    (one : Bool) (st : EngineState) (el : Elem)
    (hvalid : validStrategies.contains s = true)
    (hel : findByStrategy env doc s v = some el) :
    Content.subscribe env doc s v one st =
      (ObserverResponse.subOk st.nextId (some (st.nextId + 1)),
       if one then
         { st with observerRunning := true, nextId := st.nextId + 1 + 1, elementStore := mapSet st.elementStore (st.nextId + 1) el }
       else
         { st with observerRunning := true, nextId := st.nextId + 1 + 1, elementStore := mapSet st.elementStore (st.nextId + 1) el, subscriptions := mapSet st.subscriptions st.nextId { id := st.nextId, strategy := s, value := v, oneShot := one } }) := by
  have hmem : s ∈ validStrategies := by simpa using hvalid
  cases one <;> simp [Content.subscribe, hmem, hel]

theorem subscribe_invalid_eq (env : Platform) (doc : Elem) (s v : String)
    (one : Bool) (st : EngineState) (hval : s ∉ validStrategies) :
    Content.subscribe env doc s v one st =
      (ObserverResponse.err ("Invalid strategy: " ++ s) "invalid argument",
       { st with observerRunning := true }) := by
  simp [Content.subscribe, hval]

theorem subscribe_frame (env : Platform) (doc : Elem) (s v : String)
    (one : Bool) (st : EngineState) :
    st.nextId ≤ (Content.subscribe env doc s v one st).2.nextId ∧
    (∀ k, k < st.nextId →
      mapGet (Content.subscribe env doc s v one st).2.elementStore k =
        mapGet st.elementStore k) ∧
    (mapKeysBelow st.elementStore st.nextId →
      mapKeysBelow (Content.subscribe env doc s v one st).2.elementStore
        (Content.subscribe env doc s v one st).2.nextId) := by
  by_cases hval : s ∈ validStrategies
  · cases hel : findByStrategy env doc s v with
    | none =>
      rw [subscribe_nomatch_eq env doc s v one st (by simpa using hval) hel]
      exact ⟨Nat.le_succ _, fun k hk => rfl,
        fun hwf => mapKeysBelow_mono _ _ _ (Nat.le_succ _) hwf⟩
    | some el =>
      rw [subscribe_found_eq env doc s v one st el (by simpa using hval) hel]
      cases one
      · simp only [Bool.false_eq_true, if_false]
        refine ⟨by omega, ?_, ?_⟩
        · intro k hk
          show mapGet (mapSet st.elementStore (st.nextId + 1) el) k =
            mapGet st.elementStore k
          exact mapGet_set_ne _ _ _ _ (by omega)
        · intro hwf
          show mapKeysBelow (mapSet st.elementStore (st.nextId + 1) el)
            (st.nextId + 1 + 1)
          exact mapKeysBelow_set _ _ _ _
            (mapKeysBelow_mono _ _ _ (by omega) hwf) (by omega)
      · simp only [if_true]
        refine ⟨by omega, ?_, ?_⟩
        · intro k hk
          show mapGet (mapSet st.elementStore (st.nextId + 1) el) k =
            mapGet st.elementStore k
          exact mapGet_set_ne _ _ _ _ (by omega)
        · intro hwf
          show mapKeysBelow (mapSet st.elementStore (st.nextId + 1) el)
            (st.nextId + 1 + 1)
          exact mapKeysBelow_set _ _ _ _
            (mapKeysBelow_mono _ _ _ (by omega) hwf) (by omega)
  · rw [subscribe_invalid_eq env doc s v one st hval]
    exact ⟨Nat.le_refl _, fun k hk => rfl, fun hwf => hwf⟩

theorem find?_append_last {α : Type} (p : α → Bool) (l : List α) (a : α)
    (hl : ∀ x ∈ l, p x = false) (ha : p a = true) :
    (l ++ [a]).find? p = some a := by
  induction l with
  | nil => simp [List.find?, ha]
  | cons b rest ih =>
    have hb := hl b (List.mem_cons_self _ _)
    simp only [List.cons_append, List.find?_cons, hb]
    exact ih (fun x hx => hl x (List.mem_cons_of_mem _ hx))

theorem find_by_id_nodup (l : List ActiveSubscription) (sub : ActiveSubscription)
    (hnd : (l.map (fun a => a.subscriptionId)).Nodup) (hmem : sub ∈ l) :
    l.find? (fun a => a.subscriptionId == sub.subscriptionId) = some sub := by
  induction l with
  | nil => cases hmem
  | cons a rest ih =>
    simp only [List.map_cons, List.nodup_cons] at hnd
    by_cases ha : a.subscriptionId = sub.subscriptionId
    · have : a = sub := by
        rcases List.mem_cons.mp hmem with h | h
        · exact h.symm
        · exfalso
          exact hnd.1 (ha ▸ List.mem_map.mpr ⟨sub, h, rfl⟩)
      rw [List.find?_cons]
      simp [ha, this]
    · rw [List.find?_cons]
      have hb : (a.subscriptionId == sub.subscriptionId) = false := by simp [ha]
      rw [hb]
      rcases List.mem_cons.mp hmem with h | h
      · exact absurd (h ▸ rfl) ha
      · exact ih hnd.2 h

/-! ### sendSubscribeToContentScript characterization -/

theorem sendSubscribe_skip (env : Platform) (doc? : Option Elem)
    (tabId i : Nat) (sys : SystemState)
    (h : findSub sys.coord tabId i = none) :
    sendSubscribeToContentScript env doc? tabId i sys = sys := by
  simp [sendSubscribeToContentScript, h]

theorem sendSubscribe_nomatch (env : Platform) (doc : Elem) (tabId i : Nat)
    (sys : SystemState) (sub : ActiveSubscription)
    (hfind : findSub sys.coord tabId i = some sub)
    (hres : sub.resolved = false)
    (hvalid : validStrategies.contains sub.strategy = true)
    (hnone : findByStrategy env doc sub.strategy sub.value = none) :
    sendSubscribeToContentScript env (some doc) tabId i sys =
      { sys with engine :=
          (Content.subscribe env doc sub.strategy sub.value sub.oneShot
            sys.engine).2 } := by
  have hresp := subscribe_nomatch_eq env doc sub.strategy sub.value sub.oneShot
    sys.engine hvalid hnone
  simp only [sendSubscribeToContentScript, hfind, hres, Bool.false_eq_true,
    if_false, trySubscribe, trySubscribeMessage, hresp]

theorem sendSubscribe_found (env : Platform) (doc : Elem) (tabId i : Nat)
    (sys : SystemState) (sub : ActiveSubscription) (el : Elem)
    (hfind : findSub sys.coord tabId i = some sub)
    (hres : sub.resolved = false)
    (hvalid : validStrategies.contains sub.strategy = true)
    (hel : findByStrategy env doc sub.strategy sub.value = some el) :
    sendSubscribeToContentScript env (some doc) tabId i sys =
      { coord := settleOutcome (removeSubscription sys.coord tabId i) i
          (SubOutcome.fulfilled i (some (sys.engine.nextId + 1))),
        engine := (Content.subscribe env doc sub.strategy sub.value sub.oneShot
          sys.engine).2 } := by
  obtain ⟨hresp, -, -⟩ := subscribe_found_resp env doc sub.strategy sub.value
    sub.oneShot sys.engine el hvalid hel
  simp only [sendSubscribeToContentScript, hfind, hres, Bool.false_eq_true,
    if_false, trySubscribe, trySubscribeMessage, hresp]

theorem findSub_settle (c : CoordState) (k : Nat) (o : SubOutcome)
    (t i : Nat) : findSub (settleOutcome c k o) t i = findSub c t i := by
  unfold findSub
  rw [settleOutcome_activeSubscriptions]

theorem listedIds_settle (c : CoordState) (k : Nat) (o : SubOutcome)
    (t : Nat) : listedIds (settleOutcome c k o) t = listedIds c t := by
  unfold listedIds
  rw [settleOutcome_activeSubscriptions]

/-- General frame lemma for `sendSubscribeToContentScript` with respect to a
different coordinator subscription `i` and the engine's store. -/
theorem sendSubscribe_frame (env : Platform) (doc? : Option Elem)
    (tabId j : Nat) (sys : SystemState) (i : Nat) (hij : i ≠ j) :
    findSub (sendSubscribeToContentScript env doc? tabId j sys).coord tabId i =
      findSub sys.coord tabId i ∧
    mapGet (sendSubscribeToContentScript env doc? tabId j sys).coord.outcomes i =
      mapGet sys.coord.outcomes i ∧
    (i ∉ listedIds sys.coord tabId →
      i ∉ listedIds (sendSubscribeToContentScript env doc? tabId j sys).coord tabId) ∧
    sys.engine.nextId ≤
      (sendSubscribeToContentScript env doc? tabId j sys).engine.nextId ∧
    (∀ k, k < sys.engine.nextId →
      mapGet (sendSubscribeToContentScript env doc? tabId j sys).engine.elementStore k =
        mapGet sys.engine.elementStore k) ∧
    (mapKeysBelow sys.engine.elementStore sys.engine.nextId →
      mapKeysBelow (sendSubscribeToContentScript env doc? tabId j sys).engine.elementStore
        (sendSubscribeToContentScript env doc? tabId j sys).engine.nextId) := by
  cases hf : findSub sys.coord tabId j with
  | none =>
    rw [sendSubscribe_skip env doc? tabId j sys hf]
    exact ⟨rfl, rfl, fun h => h, Nat.le_refl _, fun k _ => rfl, fun h => h⟩
  | some sub =>
    cases hres : sub.resolved with
    | true =>
      have : sendSubscribeToContentScript env doc? tabId j sys = sys := by
        simp [sendSubscribeToContentScript, hf, hres]
      rw [this]
      exact ⟨rfl, rfl, fun h => h, Nat.le_refl _, fun k _ => rfl, fun h => h⟩
    | false =>
      cases doc? with
      | none =>
        have : sendSubscribeToContentScript env none tabId j sys = sys := by
          simp [sendSubscribeToContentScript, hf, hres]
        rw [this]
        exact ⟨rfl, rfl, fun h => h, Nat.le_refl _, fun k _ => rfl, fun h => h⟩
      | some doc =>
        obtain ⟨e1, e2, e3⟩ := subscribe_frame env doc sub.strategy sub.value
          sub.oneShot sys.engine
        cases hresp : (Content.subscribe env doc sub.strategy sub.value
            sub.oneShot sys.engine).1 with
        | subOk sid eid? =>
          cases eid? with
          | some eid =>
            have heq : sendSubscribeToContentScript env (some doc) tabId j sys =
                { coord := settleOutcome (removeSubscription sys.coord tabId j) j
                    (SubOutcome.fulfilled j (some eid)),
                  engine := (Content.subscribe env doc sub.strategy sub.value
                    sub.oneShot sys.engine).2 } := by
              simp only [sendSubscribeToContentScript, hf, hres,
                Bool.false_eq_true, if_false, trySubscribe, trySubscribeMessage,
                hresp]
            rw [heq]
            refine ⟨?_, ?_, ?_, e1, e2, e3⟩
            · rw [findSub_settle, findSub_remove_other _ _ _ _ hij]
            · rw [settleOutcome_get_ne _ _ _ _ hij, removeSubscription_outcomes]
            · intro h
              rw [listedIds_settle]
              exact notListed_remove_other _ _ _ _ h
          | none =>
            have heq : sendSubscribeToContentScript env (some doc) tabId j sys =
                { sys with engine := (Content.subscribe env doc sub.strategy
                    sub.value sub.oneShot sys.engine).2 } := by
              simp only [sendSubscribeToContentScript, hf, hres,
                Bool.false_eq_true, if_false, trySubscribe, trySubscribeMessage,
                hresp]
            rw [heq]
            exact ⟨rfl, rfl, fun h => h, e1, e2, e3⟩
        | ok =>
          have heq : sendSubscribeToContentScript env (some doc) tabId j sys =
              { sys with engine := (Content.subscribe env doc sub.strategy
                  sub.value sub.oneShot sys.engine).2 } := by
            simp only [sendSubscribeToContentScript, hf, hres,
              Bool.false_eq_true, if_false, trySubscribe, trySubscribeMessage,
              hresp]
          rw [heq]
          exact ⟨rfl, rfl, fun h => h, e1, e2, e3⟩
        | err e c =>
          have heq : sendSubscribeToContentScript env (some doc) tabId j sys =
              { sys with engine := (Content.subscribe env doc sub.strategy
                  sub.value sub.oneShot sys.engine).2 } := by
            simp only [sendSubscribeToContentScript, hf, hres,
              Bool.false_eq_true, if_false, trySubscribe, trySubscribeMessage,
              hresp]
          rw [heq]
          exact ⟨rfl, rfl, fun h => h, e1, e2, e3⟩

/-! ### Navigation-survival invariants (for C1) -/

/-- The coordinator still holds an unresolved record for `i` with the given
strategy and value, the caller's promise is pending, and the engine store is
key-bounded. -/
def NavPend (tabId i : Nat) (s v : String) (sys : SystemState) : Prop :=
  (∃ rec : ActiveSubscription, findSub sys.coord tabId i = some rec ∧
    rec.resolved = false ∧ rec.strategy = s ∧ rec.value = v) ∧
  mapGet sys.coord.outcomes i = some SubOutcome.pending ∧
  mapKeysBelow sys.engine.elementStore sys.engine.nextId

/-- The caller's promise has been fulfilled with the coordinator id and an
element handle that the current engine's store maps to `el`, and the durable
record is gone. -/
def NavDone (tabId i : Nat) (el : Elem) (sys : SystemState) : Prop :=
  (∃ eid, eid < sys.engine.nextId ∧
    mapGet sys.coord.outcomes i = some (SubOutcome.fulfilled i (some eid)) ∧
    mapGet sys.engine.elementStore eid = some el) ∧
  i ∉ listedIds sys.coord tabId ∧
  mapKeysBelow sys.engine.elementStore sys.engine.nextId

theorem navPend_frame (env : Platform) (doc? : Option Elem) (tabId i : Nat)
    (s v : String) (sys : SystemState) (j : Nat) (hij : i ≠ j)
    (h : NavPend tabId i s v sys) :
    NavPend tabId i s v (sendSubscribeToContentScript env doc? tabId j sys) := by
  obtain ⟨⟨rec, hfind, hres, hs, hv⟩, hout, hwf⟩ := h
  obtain ⟨f1, f2, -, -, -, f6⟩ := sendSubscribe_frame env doc? tabId j sys i hij
  exact ⟨⟨rec, f1.trans hfind, hres, hs, hv⟩, f2.trans hout, f6 hwf⟩

theorem navDone_frame (env : Platform) (doc? : Option Elem) (tabId i : Nat)
    (el : Elem) (sys : SystemState) (j : Nat) (hij : i ≠ j)
    (h : NavDone tabId i el sys) :
    NavDone tabId i el (sendSubscribeToContentScript env doc? tabId j sys) := by
  obtain ⟨⟨eid, h1, h2, h3⟩, h4, h5⟩ := h
  obtain ⟨-, f2, f3, f4, f5, f6⟩ := sendSubscribe_frame env doc? tabId j sys i hij
  exact ⟨⟨eid, Nat.lt_of_lt_of_le h1 f4, f2.trans h2, (f5 eid h1).trans h3⟩,
    f3 h4, f6 h5⟩

/-- Hit lemma: when the forward reaches the frame and the new document holds
a match, the record is removed and the promise fulfilled with the new
frame's element handle. -/
theorem sendSubscribe_hit_nav (env : Platform) (newDoc : Elem)
    (tabId i : Nat) (s v : String) (el : Elem) (sys : SystemState)
    (hvalid : validStrategies.contains s = true)
    (hel : findByStrategy env newDoc s v = some el)
    (h : NavPend tabId i s v sys) :
    NavDone tabId i el
      (sendSubscribeToContentScript env (some newDoc) tabId i sys) := by
  obtain ⟨⟨rec, hfind, hres, hs, hv⟩, hout, hwf⟩ := h
  have hvalid' : validStrategies.contains rec.strategy = true := hs.symm ▸ hvalid
  have hel' : findByStrategy env newDoc rec.strategy rec.value = some el := by
    rw [hs, hv]; exact hel
  rw [sendSubscribe_found env newDoc tabId i sys rec el hfind hres hvalid' hel']
  obtain ⟨-, r2, r3⟩ := subscribe_found_resp env newDoc rec.strategy rec.value
    rec.oneShot sys.engine el hvalid' hel'
  refine ⟨⟨sys.engine.nextId + 1, ?_, ?_, r2⟩, ?_, ?_⟩
  · rw [r3]; omega
  · rw [settleOutcome_get_self]
    rw [removeSubscription_outcomes]
    exact hout
  · rw [listedIds_settle]
    exact notListed_remove_self _ _ _
  · exact (subscribe_frame env newDoc rec.strategy rec.value rec.oneShot
      sys.engine).2.2 hwf

/-- After the trigger, the remaining re-sends (all for other ids) keep the
fulfilled outcome and the stored handle intact. -/
theorem resendFold_preserve_done (env : Platform) (newDoc : Elem)
    (tabId i : Nat) (el : Elem) :
    ∀ (l : List ActiveSubscription) (sys : SystemState),
      (∀ b ∈ l, b.subscriptionId ≠ i) →
      NavDone tabId i el sys →
      NavDone tabId i el
        (l.foldl
          (fun acc sub =>
            if sub.resolved then acc
            else sendSubscribeToContentScript env (some newDoc) tabId
              sub.subscriptionId acc) sys) := by
  intro l
  induction l with
  | nil => exact fun sys _ h => h
  | cons a rest ih =>
    intro sys hb h
    simp only [List.foldl_cons]
    cases hres : a.resolved with
    | true =>
      simp only [if_true]
      exact ih _ (fun b hbm => hb b (List.mem_cons_of_mem _ hbm)) h
    | false =>
      simp only [Bool.false_eq_true, if_false]
      refine ih _ (fun b hbm => hb b (List.mem_cons_of_mem _ hbm)) ?_
      exact navDone_frame env (some newDoc) tabId i el sys a.subscriptionId
        (fun he => hb a (List.mem_cons_self _ _) he.symm) h

/-- The re-send loop resolves the pending subscription `i` when the new
document contains a match. -/
theorem resendFold_resolves (env : Platform) (newDoc : Elem) (tabId i : Nat)
    (s v : String) (el : Elem)
    (hvalid : validStrategies.contains s = true)
    (hel : findByStrategy env newDoc s v = some el) :
    ∀ (l : List ActiveSubscription) (sys : SystemState),
      (l.map (fun a => a.subscriptionId)).Nodup →
      (∃ a ∈ l, a.subscriptionId = i ∧ a.resolved = false) →
      NavPend tabId i s v sys →
      NavDone tabId i el
        (l.foldl
          (fun acc sub =>
            if sub.resolved then acc
            else sendSubscribeToContentScript env (some newDoc) tabId
              sub.subscriptionId acc) sys) := by
  intro l
  induction l with
  | nil =>
    intro sys _ hex _
    obtain ⟨a, ha, -⟩ := hex
    cases ha
  | cons a rest ih =>
    intro sys hnd hex hpend
    simp only [List.map_cons, List.nodup_cons] at hnd
    simp only [List.foldl_cons]
    by_cases hai : a.subscriptionId = i
    · have hrest_ne : ∀ b ∈ rest, b.subscriptionId ≠ i := by
        intro b hbm hbi
        exact hnd.1 (hai ▸ hbi ▸ List.mem_map.mpr ⟨b, hbm, rfl⟩)
      have hares : a.resolved = false := by
        obtain ⟨b, hb, hbi, hbres⟩ := hex
        rcases List.mem_cons.mp hb with hba | hbrest
        · exact hba ▸ hbres
        · exact absurd hbi (hrest_ne b hbrest)
      rw [hares]
      simp only [Bool.false_eq_true, if_false]
      rw [hai]
      exact resendFold_preserve_done env newDoc tabId i el rest _ hrest_ne
        (sendSubscribe_hit_nav env newDoc tabId i s v el sys hvalid hel hpend)
    · have hex' : ∃ b ∈ rest, b.subscriptionId = i ∧ b.resolved = false := by
        obtain ⟨b, hb, hbi, hbres⟩ := hex
        rcases List.mem_cons.mp hb with hba | hbrest
        · exact absurd (hba ▸ hbi) hai
        · exact ⟨b, hbrest, hbi, hbres⟩
      cases hres : a.resolved with
      | true =>
        simp only [if_true]
        exact ih _ hnd.2 hex' hpend
      | false =>
        simp only [Bool.false_eq_true, if_false]
        refine ih _ hnd.2 hex' ?_
        exact navPend_frame env (some newDoc) tabId i s v sys a.subscriptionId
          (fun he => hai he.symm) hpend

/-- C1: a oneShot subscription still unresolved when a top-level (frameId 0)
navigation of its tab completes is re-forwarded to the new frame's engine
after the fixed 200ms settle delay; if the post-navigation document contains
an element matching the subscription's strategy and value, the caller's
original promise is fulfilled with the new frame's element handle and the
durable record is removed. -/
theorem claim1_resubscribe_after_nav
    (env : Platform) (newDoc : Elem) (tabId : Nat) (sys : SystemState)
    (subs : List ActiveSubscription) (sub : ActiveSubscription) (el : Elem)
    (hsubs : mapGet sys.coord.activeSubscriptions tabId = some subs)
    (hmem : sub ∈ subs)
    (_hone : sub.oneShot = true)
    (hres : sub.resolved = false)
    (hnodup : (subs.map (fun a => a.subscriptionId)).Nodup)
    (hout : mapGet sys.coord.outcomes sub.subscriptionId =
      some SubOutcome.pending)
    (hvalid : validStrategies.contains sub.strategy = true)
    (hel : findByStrategy env newDoc sub.strategy sub.value = some el) :
    (processNavigationCompleted env 0 tabId newDoc sys).1 = settleDelayMs ∧
    ∃ eid,
      mapGet (processNavigationCompleted env 0 tabId newDoc sys).2.coord.outcomes
          sub.subscriptionId =
        some (SubOutcome.fulfilled sub.subscriptionId (some eid)) ∧
      mapGet (processNavigationCompleted env 0 tabId newDoc
          sys).2.engine.elementStore eid = some el ∧
      sub.subscriptionId ∉
        listedIds (processNavigationCompleted env 0 tabId newDoc sys).2.coord
          tabId := by
  have hnonempty : subs.isEmpty = false := by
    cases subs with
    | nil => cases hmem
    | cons a rest => rfl
  have hnav : processNavigationCompleted env 0 tabId newDoc sys =
      (settleDelayMs,
        subs.foldl
          (fun acc sub' =>
            if sub'.resolved then acc
            else sendSubscribeToContentScript env (some newDoc) tabId
              sub'.subscriptionId acc)
          { sys with engine := initialEngineState }) := by
    simp only [processNavigationCompleted, if_pos,
      resendSubscriptionsAfterNavigation, hsubs, hnonempty,
      Bool.false_eq_true, if_false]
  have hpend : NavPend tabId sub.subscriptionId sub.strategy sub.value
      { sys with engine := initialEngineState } := by
    refine ⟨⟨sub, ?_, hres, rfl, rfl⟩, hout, ?_⟩
    · unfold findSub
      show (match mapGet sys.coord.activeSubscriptions tabId with
        | none => none
        | some l =>
          l.find? (fun s => s.subscriptionId == sub.subscriptionId)) =
        some sub
      rw [hsubs]
      exact find_by_id_nodup subs sub hnodup hmem
    · intro p hp
      cases hp
  have hdone := resendFold_resolves env newDoc tabId sub.subscriptionId
    sub.strategy sub.value el hvalid hel subs
    { sys with engine := initialEngineState } hnodup
    ⟨sub, hmem, rfl, hres⟩ hpend
  constructor
  · rw [hnav]
  · rw [hnav]
    obtain ⟨⟨eid, -, h2, h3⟩, h4, -⟩ := hdone
    exact ⟨eid, h2, h3, h4⟩

/-- Fixture: an unresolved oneShot coordinator record. -/
def subW1 : ActiveSubscription :=
  { subscriptionId := 5, strategy := "id", value := "login", oneShot := true,
    tabId := 1, frameId := 0, resolved := false, timeoutMs := some 5000 }

/-- Fixture: a coordinator holding `subW1` pending on tab 1. -/
def coordW1 : CoordState :=
  { activeSubscriptions := [(1, [subW1])],
    outcomes := [(5, SubOutcome.pending)],
    nextId := 6 }

/-- Fixture: a system with `subW1` pending on tab 1. -/
def sysW1 : SystemState := { coord := coordW1, engine := initialEngineState }

/-- Concrete instantiation of C1: after a top-level navigation of tab 1 to
`docW` (which contains the id "login" button), the pending promise 5 is
fulfilled with a handle to `btnLogin` and the record is removed. -/
theorem claim1_witness :
    (processNavigationCompleted envFalse 0 1 docW sysW1).1 = settleDelayMs ∧
    ∃ eid,
      mapGet (processNavigationCompleted envFalse 0 1 docW
          sysW1).2.coord.outcomes 5 =
        some (SubOutcome.fulfilled 5 (some eid)) ∧
      mapGet (processNavigationCompleted envFalse 0 1 docW
          sysW1).2.engine.elementStore eid = some btnLogin ∧
      5 ∉ listedIds (processNavigationCompleted envFalse 0 1 docW
          sysW1).2.coord 1 := by
  exact claim1_resubscribe_after_nav envFalse docW 1 sysW1 [subW1] subW1
    btnLogin rfl (List.mem_singleton.mpr rfl) rfl rfl (by simp [subW1]) rfl
    (by decide) rfl

/-- C2: when the armed timer of an unresolved oneShot subscription with a
positive timeout fires, the durable record is removed from the tab's list
and the caller's promise is rejected with a Timeout condition whose message
names the strategy and value; once removed, a later `element.added`
notification with the same strategy and value leaves the settled outcome
untouched — it can never resolve the subscription a second time. -/
theorem claim2_timeout_rejects_and_removes
    (sys : SystemState) (tabId subId T : Nat) (sub : ActiveSubscription)
    (hfind : findSub sys.coord tabId subId = some sub)
    (hres : sub.resolved = false)
    (hT : sub.timeoutMs = some T)
    (hTpos : 0 < T)
    (hout : mapGet sys.coord.outcomes subId = some SubOutcome.pending) :
    sub.timerArmed = true ∧
    subId ∉ listedIds (fireTimeout tabId subId sys).coord tabId ∧
    mapGet (fireTimeout tabId subId sys).coord.outcomes subId =
      some (SubOutcome.rejected "timeout"
        ("Element not found within " ++ toString T ++ "ms: " ++ sub.strategy ++
          "=\x22" ++ sub.value ++ "\x22")) ∧
    ∀ eid,
      mapGet (handleElementAddedEvent tabId eid sub.strategy sub.value
          (fireTimeout tabId subId sys).coord).outcomes subId =
        some (SubOutcome.rejected "timeout"
          ("Element not found within " ++ toString T ++ "ms: " ++ sub.strategy ++
            "=\x22" ++ sub.value ++ "\x22")) := by
  have hstep : fireTimeout tabId subId sys =
      { coord := settleOutcome (removeSubscription sys.coord tabId subId) subId
          (SubOutcome.rejected "timeout"
            ("Element not found within " ++ toString T ++ "ms: " ++
              sub.strategy ++ "=\x22" ++ sub.value ++ "\x22")),
        engine := (Content.unsubscribe subId sys.engine).2 } := by
    simp only [fireTimeout, hfind, hres, Bool.false_eq_true, if_false, hT,
      Option.getD_some]
  have hnot : subId ∉
      listedIds (fireTimeout tabId subId sys).coord tabId := by
    rw [hstep]
    show subId ∉ listedIds (settleOutcome _ _ _) tabId
    rw [listedIds_settle]
    exact notListed_remove_self _ _ _
  have hrej : mapGet (fireTimeout tabId subId sys).coord.outcomes subId =
      some (SubOutcome.rejected "timeout"
        ("Element not found within " ++ toString T ++ "ms: " ++ sub.strategy ++
          "=\x22" ++ sub.value ++ "\x22")) := by
    rw [hstep]
    show mapGet (settleOutcome _ _ _).outcomes subId = _
    rw [settleOutcome_get_self]
    rw [removeSubscription_outcomes]
    exact hout
  refine ⟨?_, hnot, hrej, ?_⟩
  · simp [ActiveSubscription.timerArmed, hT, hTpos]
  · intro eid
    rw [handleElementAdded_outcome_frame _ _ _ _ _ _ hnot]
    exact hrej

/-- Concrete instantiation of C2: firing the 5000ms timer of pending
subscription 5 on `sysW1` removes it and rejects with the Timeout message;
a later `element.added` for the same strategy and value leaves the rejected
outcome in place. -/
theorem claim2_witness :
    5 ∉ listedIds (fireTimeout 1 5 sysW1).coord 1 ∧
    mapGet (fireTimeout 1 5 sysW1).coord.outcomes 5 =
      some (SubOutcome.rejected "timeout"
        "Element not found within 5000ms: id=\x22login\x22") ∧
    mapGet (handleElementAddedEvent 1 77 "id" "login"
        (fireTimeout 1 5 sysW1).coord).outcomes 5 =
      some (SubOutcome.rejected "timeout"
        "Element not found within 5000ms: id=\x22login\x22") := by
  have h := claim2_timeout_rejects_and_removes sysW1 1 5 5000 subW1 rfl rfl
    rfl (by decide) rfl
  exact ⟨h.2.1, h.2.2.1, h.2.2.2 77⟩

/-- C10: a oneShot subscribe through the coordinator returns the
coordinator's own freshly drawn subscriptionId; the forwarded
`ELEMENT_SUBSCRIBE` message carries only strategy, value and oneShot (it is
independent of the coordinator's id), and the engine keys its own pending
watch under its own independently drawn id; consequently, while the wait is
pending, an unsubscribe with the returned id reaches the engine as an
unknown id and fails with the NoSuchElement-class error, leaving both the
engine's pending watch and the caller's pending promise in place. -/
theorem claim10_coordinator_id_unknown_to_engine
    (env : Platform) (doc : Elem) (strategy value : String)
    (timeout : Option Nat) (tabId frameId : Nat) (sys : SystemState)
    (hvalid : validStrategies.contains strategy = true)
    (hnomatch : findByStrategy env doc strategy value = none)
    (hfresh : ∀ s ∈ (mapGet sys.coord.activeSubscriptions tabId).getD [],
      s.subscriptionId ≠ sys.coord.nextId)
    (hdisj1 : mapGet sys.engine.subscriptions sys.coord.nextId = none)
    (hdisj2 : sys.coord.nextId ≠ sys.engine.nextId) :
    (handleSubscribeOneShot env (some doc) strategy value timeout tabId
      frameId sys).1 = sys.coord.nextId ∧
    (∀ s1 s2 : ActiveSubscription, s1.strategy = s2.strategy →
      s1.value = s2.value → s1.oneShot = s2.oneShot →
      trySubscribeMessage s1 = trySubscribeMessage s2) ∧
    mapGet (handleSubscribeOneShot env (some doc) strategy value timeout tabId
      frameId sys).2.engine.subscriptions sys.coord.nextId = none ∧
    mapGet (handleSubscribeOneShot env (some doc) strategy value timeout tabId
      frameId sys).2.engine.subscriptions sys.engine.nextId =
      some { id := sys.engine.nextId, strategy := strategy, value := value, oneShot := true } ∧
    mapGet (handleSubscribeOneShot env (some doc) strategy value timeout tabId
      frameId sys).2.coord.outcomes sys.coord.nextId =
      some SubOutcome.pending ∧
    (handleUnsubscribe sys.coord.nextId
      (handleSubscribeOneShot env (some doc) strategy value timeout tabId
        frameId sys).2).1 =
      Except.error ("Subscription not found: " ++ toString sys.coord.nextId) ∧
    (handleUnsubscribe sys.coord.nextId
      (handleSubscribeOneShot env (some doc) strategy value timeout tabId
        frameId sys).2).2.engine =
      (handleSubscribeOneShot env (some doc) strategy value timeout tabId
        frameId sys).2.engine := by
  have hfind : findSub
      { activeSubscriptions := mapSet sys.coord.activeSubscriptions tabId
          (((mapGet sys.coord.activeSubscriptions tabId).getD []) ++
            [{ subscriptionId := sys.coord.nextId, strategy := strategy, value := value, oneShot := true, tabId := tabId, frameId := frameId, resolved := false, timeoutMs := timeout }]),
        outcomes := mapSet sys.coord.outcomes sys.coord.nextId
          SubOutcome.pending,
        nextId := sys.coord.nextId + 1 } tabId sys.coord.nextId =
      some { subscriptionId := sys.coord.nextId, strategy := strategy, value := value, oneShot := true, tabId := tabId, frameId := frameId, resolved := false, timeoutMs := timeout } := by
    unfold findSub
    rw [mapGet_set_self]
    refine find?_append_last _ _ _ ?_ ?_
    · intro x hx
      have := hfresh x hx
      simp [this]
    · simp
  have hmain : (handleSubscribeOneShot env (some doc) strategy value timeout
      tabId frameId sys).2 =
      { coord :=
          { activeSubscriptions := mapSet sys.coord.activeSubscriptions tabId
              (((mapGet sys.coord.activeSubscriptions tabId).getD []) ++
                [{ subscriptionId := sys.coord.nextId, strategy := strategy, value := value, oneShot := true, tabId := tabId, frameId := frameId, resolved := false, timeoutMs := timeout }]),
            outcomes := mapSet sys.coord.outcomes sys.coord.nextId
              SubOutcome.pending,
            nextId := sys.coord.nextId + 1 },
        engine := (Content.subscribe env doc strategy value true sys.engine).2 } := by
    have hstep : (handleSubscribeOneShot env (some doc) strategy value timeout
        tabId frameId sys).2 =
        sendSubscribeToContentScript env (some doc) tabId sys.coord.nextId
          { coord :=
              { activeSubscriptions := mapSet sys.coord.activeSubscriptions tabId
                  (((mapGet sys.coord.activeSubscriptions tabId).getD []) ++
                    [{ subscriptionId := sys.coord.nextId, strategy := strategy, value := value, oneShot := true, tabId := tabId, frameId := frameId, resolved := false, timeoutMs := timeout }]),
                outcomes := mapSet sys.coord.outcomes sys.coord.nextId
                  SubOutcome.pending,
                nextId := sys.coord.nextId + 1 },
            engine := sys.engine } := rfl
    rw [hstep, sendSubscribe_nomatch env doc tabId sys.coord.nextId _ _ hfind
      rfl hvalid hnomatch]
  have heng : (Content.subscribe env doc strategy value true
      sys.engine).2.subscriptions =
      mapSet sys.engine.subscriptions sys.engine.nextId
        { id := sys.engine.nextId, strategy := strategy, value := value, oneShot := true } := by
    rw [subscribe_nomatch_eq env doc strategy value true sys.engine hvalid
      hnomatch]
  have hcontains : mapContains (Content.subscribe env doc strategy value true
      sys.engine).2.subscriptions sys.coord.nextId = false := by
    unfold mapContains
    rw [heng, mapGet_set_ne _ _ _ _ hdisj2, hdisj1]
    rfl
  have huns : Content.unsubscribe sys.coord.nextId
      (Content.subscribe env doc strategy value true sys.engine).2 =
      (ObserverResponse.err
        ("Subscription not found: " ++ toString sys.coord.nextId)
        "no such element",
       (Content.subscribe env doc strategy value true sys.engine).2) := by
    simp [Content.unsubscribe, hcontains]
  refine ⟨rfl, ?_, ?_, ?_, ?_, ?_, ?_⟩
  · intro s1 s2 h1 h2 h3
    simp [trySubscribeMessage, h1, h2, h3]
  · rw [hmain]
    show mapGet (Content.subscribe env doc strategy value true
      sys.engine).2.subscriptions sys.coord.nextId = none
    rw [heng, mapGet_set_ne _ _ _ _ hdisj2]
    exact hdisj1
  · rw [hmain]
    show mapGet (Content.subscribe env doc strategy value true
      sys.engine).2.subscriptions sys.engine.nextId = _
    rw [heng]
    exact mapGet_set_self _ _ _
  · rw [hmain]
    exact mapGet_set_self _ _ _
  · rw [hmain]
    show (handleUnsubscribe sys.coord.nextId _).1 = _
    simp only [handleUnsubscribe, huns]
  · rw [hmain]
    show (handleUnsubscribe sys.coord.nextId _).2.engine = _
    simp only [handleUnsubscribe, huns]

/-- Fixture: a coordinator with no records and counter 7. -/
def coordW10 : CoordState :=
  { activeSubscriptions := [], outcomes := [], nextId := 7 }

/-- Fixture: a fresh system for the C10 scenario. -/
def sysW10 : SystemState := { coord := coordW10, engine := initialEngineState }

/-- Concrete instantiation of C10: the driver receives coordinator id 7, the
engine waits under its own id 0, and unsubscribing id 7 fails with the
NoSuchElement-class error while everything stays pending. -/
theorem claim10_witness :
    (handleSubscribeOneShot envFalse (some docW) "id" "nope" none 1 0
      sysW10).1 = 7 ∧
    mapGet (handleSubscribeOneShot envFalse (some docW) "id" "nope" none 1 0
      sysW10).2.engine.subscriptions 7 = none ∧
    mapGet (handleSubscribeOneShot envFalse (some docW) "id" "nope" none 1 0
      sysW10).2.engine.subscriptions 0 =
      some { id := 0, strategy := "id", value := "nope", oneShot := true } ∧
    mapGet (handleSubscribeOneShot envFalse (some docW) "id" "nope" none 1 0
      sysW10).2.coord.outcomes 7 = some SubOutcome.pending ∧
    (handleUnsubscribe 7 (handleSubscribeOneShot envFalse (some docW) "id"
      "nope" none 1 0 sysW10).2).1 =
      Except.error "Subscription not found: 7" ∧
    (handleUnsubscribe 7 (handleSubscribeOneShot envFalse (some docW) "id"
      "nope" none 1 0 sysW10).2).2.engine =
      (handleSubscribeOneShot envFalse (some docW) "id" "nope" none 1 0
        sysW10).2.engine := by
  have h := claim10_coordinator_id_unknown_to_engine envFalse docW "id" "nope"
    none 1 0 sysW10 (by decide) rfl
    (by intro s hs; exact absurd hs (List.not_mem_nil s)) rfl (by decide)
  exact ⟨h.1, h.2.2.1, h.2.2.2.1, h.2.2.2.2.1, h.2.2.2.2.2.1, h.2.2.2.2.2.2⟩

end FWD
